import Mathlib

/-!
Signup verification workflow (`signupVerification.js`)

A shallow embedding of the four route handlers of `signupVerification.js`
(`/initiate`, `/verify`, `/resend-code`, `/status/:tempUserId`) and of the
periodic cleanup, together with theorems about them.

Conventions of the embedding:

* the process-wide `pendingRegistrations` map is threaded explicitly: every
  handler takes the store and returns the new store together with the response;
* what a handler obtains from its surroundings (`Date.now()`, the random
  generators, `bcrypt`, `mongoose`, `nodemailer`, Stripe, `jsonwebtoken`) is
  read from an `Env` record, one record for each request;
* times are integer milliseconds, as returned by `Date.now()`;
* request values are JSON primitives (`JVal`); arrays and nested objects are
  not modelled.
-/

namespace SignupVerification

/-! ## JavaScript values -/

/-- A primitive JavaScript value as found in a parsed request body;
`undefined` is what reading an absent property gives. -/
inductive JVal where
  | undefined
  | null
  | bool (b : Bool)
  | num (n : Int)
  | str (s : String)
  deriving DecidableEq, Repr, Inhabited

/-- JavaScript truthiness (`!!v`): `undefined`, `null`, `false`, `0` and the
empty string are falsy. -/
def JVal.truthy : JVal → Bool
  | .undefined => false
  | .null => false
  | .bool b => b
  | .num n => n != 0
  | .str s => s != ""

/-- The expression `v || d`. -/
def JVal.orElse (v d : JVal) : JVal :=
  if v.truthy then v else d

/-- A parsed request body: property names with their values. -/
abbrev Body := List (String × JVal)

/-- Property read `body[field]`. -/
def Body.prop (body : Body) (field : String) : JVal :=
  match body.find? (fun p => p.1 == field) with
  | some p => p.2
  | none => .undefined

/-- The `length` of a JavaScript string: its number of UTF-16 code units. -/
def utf16Length (s : String) : Nat :=
  (s.data.map (fun c => if c.toNat < 65536 then 1 else 2)).sum

/-! ## Pending registrations and the store -/

/-- The object stored by `/initiate`:
`{...userData, password, email, verificationCode, createdAt, verificationAttempts}`.
The five named properties override whatever the spread body carries under the
same names; every other property is read from `userData`. -/
structure Registration where
  userData : Body
  password : String
  email : String
  verificationCode : String
  createdAt : Int
  verificationAttempts : Nat
  deriving DecidableEq, Repr

/-- Property read `registration[field]` for a property that is not one of the
five overridden ones. -/
def Registration.prop (r : Registration) (field : String) : JVal :=
  r.userData.prop field

/-- The map `pendingRegistrations`, as its list of entries in insertion order. -/
abbrev Store := List (String × Registration)

/-- The call `pendingRegistrations.get(k)` for a string key. -/
def Store.get (s : Store) (k : String) : Option Registration :=
  match s.find? (fun p => p.1 == k) with
  | some p => some p.2
  | none => none

/-- The call `pendingRegistrations.delete(k)`. -/
def Store.delete (s : Store) (k : String) : Store :=
  s.filter (fun p => p.1 != k)

/-- The call `pendingRegistrations.set(k, v)`: an existing key keeps its position. -/
def Store.set (s : Store) (k : String) (v : Registration) : Store :=
  if (s.get k).isSome then s.map (fun p => if p.1 == k then (k, v) else p)
  else s ++ [(k, v)]

/-- In-place mutation of the object stored under `k`. -/
def Store.modify (s : Store) (k : String) (f : Registration → Registration) : Store :=
  s.map (fun p => if p.1 == k then (p.1, f p.2) else p)

/-- The call `pendingRegistrations.get(v)` for a request value: the keys of the map are
all strings, so only a string can be found. -/
def Store.getJ (s : Store) (v : JVal) : Option (String × Registration) :=
  match v with
  | .str k => (s.get k).map (fun r => (k, r))
  | _ => none

/-- A map holds each key once. -/
def Store.WF (s : Store) : Prop :=
  (s.map Prod.fst).Nodup

/-! ## Responses -/

/-- The `user` object of the `/verify` success response. -/
structure PublicUser where
  id : String
  email : JVal
  firstName : JVal
  lastName : JVal
  deriving DecidableEq, Repr

/-- What a handler sends back. -/
inductive Response where
  /-- Sent by `res.status(status).json({ error })`. -/
  | error (status : Nat) (error : String)
  /-- Sent by `res.json({ success: true, tempUserId, message })`. -/
  | initiated (tempUserId : String) (message : String)
  /-- Sent by `res.cookie('auth_token', token, ...)` followed by
  `res.json({ success: true, user, token, redirectUrl })`. -/
  | verified (user : PublicUser) (token : String) (redirectUrl : String)
  /-- Sent by `res.json({ success: true, message })`. -/
  | resent (message : String)
  /-- Sent by `res.json({ exists: true, email, timeRemaining, attempts })`. -/
  | status (existsFlag : Bool) (email : String) (timeRemaining : String) (attempts : Nat)
  deriving DecidableEq, Repr

/-- HTTP status code of a response. -/
def Response.code : Response → Nat
  | .error c _ => c
  | _ => 200

/-! ## Collaborators -/

/-- A thrown JavaScript error; `code` is its `code` property. -/
structure JsError where
  code : JVal
  deriving DecidableEq, Repr

/-- The plain object handed to `new User(...)` by `/verify`. -/
structure UserData where
  email : String
  password : String
  firstName : JVal
  lastName : JVal
  preferredName : JVal
  dob : JVal
  phone : JVal
  unitNumber : JVal
  street : JVal
  city : JVal
  province : JVal
  postalCode : JVal
  country : JVal
  emailVerified : Bool
  emailVerifiedAt : Int
  deriving DecidableEq, Repr

/-- A mongoose `User` document, with the properties the handlers read or write. -/
structure User where
  _id : String
  email : JVal
  firstName : JVal
  lastName : JVal
  stripeCustomerId : Option String
  deriving DecidableEq, Repr

/-- Everything a handler obtains from outside during one request. -/
structure Env where
  /-- Result of `Date.now()` (and of `new Date()`), in milliseconds. -/
  now : Int
  /-- Time value of `new Date(today.getFullYear() - 13, today.getMonth(), today.getDate())`. -/
  minAgeDate : Int
  /-- Time value of `new Date(v)`; `none` for an invalid date (`NaN`). -/
  dateValue : JVal → Option Int
  /-- Result of `String.prototype.toLowerCase`. -/
  toLowerCase : String → String
  /-- Result of `User.findOne({ email })`. -/
  findOne : String → Except JsError (Option User)
  /-- Result of `crypto.randomBytes(16)`: sixteen bytes. -/
  randomBytes : Fin 16 → Fin 256
  /-- Result of `Math.floor(100000 + Math.random() * 900000)`. -/
  randomCode : Nat
  /-- Result of `bcrypt.hash(password, 10)` on a string. -/
  bcryptHash : String → String
  /-- Outcome of `transporter.sendMail` for (recipient, code, first name). -/
  sendMail : JVal → String → JVal → Except JsError Unit
  /-- Result of `new User(userData)`. -/
  newUser : UserData → User
  /-- Outcome of `user.save()`. -/
  save : User → Except JsError Unit
  /-- Outcome of `StripeService.createCustomer(user)`: the customer's `id`. -/
  createCustomer : User → Except JsError String
  /-- Outcome of `jwt.sign({ userId, email }, process.env.JWT_SECRET, { expiresIn: '7d' })`:
  the token, or the error it throws (as it does when `JWT_SECRET` is not set). -/
  jwtSign : String → JVal → Except JsError String

/-- The conversion `buffer.toString('hex')` of sixteen bytes: two lower-case
hexadecimal digits for each byte. -/
def toHex (bytes : Fin 16 → Fin 256) : String :=
  String.mk ((List.ofFn bytes).flatMap
    (fun b => [Nat.digitChar (b.val / 16), Nat.digitChar (b.val % 16)]))

/-- The helper `generateAuthToken(user)`: it returns what `jwt.sign` returns and
throws what `jwt.sign` throws. -/
def generateAuthToken (env : Env) (user : User) : Except JsError String :=
  env.jwtSign user._id user.email

/-- The helper `sendVerificationEmail(email, code, firstName)`. -/
def sendVerificationEmail (env : Env) (email : JVal) (code : String) (firstName : JVal) :
    Except JsError Unit :=
  env.sendMail email code firstName

/-- Strict inequality `a !== v` of a string with a request value. -/
def strictNe (a : String) (v : JVal) : Bool :=
  match v with
  | .str s => a != s
  | _ => true

/-! ## Periodic cleanup -/

/-- The body of the `setInterval` callback: every entry older than ten minutes
is deleted. -/
def cleanup (now : Int) (s : Store) : Store :=
  s.foldl
    (fun acc p => if now - p.2.createdAt > 10 * 60 * 1000 then acc.delete p.1 else acc) s

/-! ## `POST /verify` -/

/-- The `userData` object built by `/verify` from a pending registration. -/
def verifyUserData (registration : Registration) (now : Int) : UserData :=
  { email := registration.email
    password := registration.password
    firstName := registration.prop "firstName"
    lastName := registration.prop "lastName"
    preferredName := (registration.prop "preferredName").orElse .null
    dob := registration.prop "dob"
    phone := (registration.prop "phone").orElse .null
    unitNumber := (registration.prop "unitNumber").orElse .null
    street := registration.prop "street"
    city := registration.prop "city"
    province := registration.prop "province"
    postalCode := registration.prop "postalCode"
    country := (registration.prop "country").orElse (.str "CA")
    emailVerified := true
    emailVerifiedAt := now }

/-- The inner `try { ... } catch (stripeError) { ... }` of `/verify`: the
document afterwards. -/
def attachStripeCustomer (env : Env) (newUser : User) : User :=
  match env.createCustomer newUser with
  | .error _ => newUser
  | .ok customerId =>
    let updated := { newUser with stripeCustomerId := some customerId }
    match env.save updated with
    | .error _ => updated
    | .ok _ => updated

/-- The handler of `POST /verify`, on `req.body.tempUserId` and
`req.body.verificationCode`. An error thrown by the first `save` or by
`generateAuthToken` reaches the outer `catch`, which answers 400 for the error
code 11000 and 500 otherwise; `generateAuthToken` runs after the pending
registration has been deleted. -/
def verify (env : Env) (s : Store) (tempUserId verificationCode : JVal) : Store × Response :=
  if !tempUserId.truthy || !verificationCode.truthy then
    (s, .error 400 "Missing verification data")
  else
    match s.getJ tempUserId with
    | none => (s, .error 400 "Registration expired or invalid. Please start again.")
    | some (key, registration) =>
      if strictNe registration.verificationCode verificationCode then
        let s1 := s.modify key
          (fun r => { r with verificationAttempts := r.verificationAttempts + 1 })
        if registration.verificationAttempts + 1 ≥ 5 then
          (s1.delete key, .error 400 "Too many failed attempts. Please restart registration.")
        else
          (s1, .error 400 "Invalid verification code. Please try again.")
      else if env.now - registration.createdAt > 10 * 60 * 1000 then
        (s.delete key, .error 400 "Verification code expired. Please request a new one.")
      else
        let newUser := env.newUser (verifyUserData registration env.now)
        match env.save newUser with
        | .error e =>
          if e.code = .num 11000 then
            (s, .error 400 "Email already registered. Please log in.")
          else
            (s, .error 500 "Failed to verify email. Please try again.")
        | .ok _ =>
          let newUser := attachStripeCustomer env newUser
          let s1 := s.delete key
          match generateAuthToken env newUser with
          | .error e =>
            if e.code = .num 11000 then
              (s1, .error 400 "Email already registered. Please log in.")
            else
              (s1, .error 500 "Failed to verify email. Please try again.")
          | .ok token =>
            (s1,
              .verified
                { id := newUser._id
                  email := newUser.email
                  firstName := newUser.firstName
                  lastName := newUser.lastName }
                token "/profile")

/-! ## `POST /resend-code` -/

/-- The handler of `POST /resend-code`, on `req.body.tempUserId`. -/
def resendCode (env : Env) (s : Store) (tempUserId : JVal) : Store × Response :=
  if !tempUserId.truthy then
    (s, .error 400 "Invalid request")
  else
    match s.getJ tempUserId with
    | none => (s, .error 400 "Registration expired. Please start again.")
    | some (key, registration) =>
      let newVerificationCode := toString env.randomCode
      let s1 := s.modify key
        (fun r => { r with
          verificationCode := newVerificationCode
          createdAt := env.now
          verificationAttempts := 0 })
      match sendVerificationEmail env (.str registration.email) newVerificationCode
          (registration.prop "firstName") with
      | .error _ => (s1, .error 500 "Failed to resend code. Please try again.")
      | .ok _ => (s1, .resent "New verification code sent!")

/-! ## `GET /status/:tempUserId` -/

/-- The method `padStart(2, '0')` of a string. -/
def padStart2 (t : String) : String :=
  String.mk (List.replicate (2 - t.length) '0') ++ t

/-- The handler of `GET /status/:tempUserId`; `Math.floor(a / b)` for a
positive `b` is integer floor division and `%` is the truncating remainder. -/
def status (env : Env) (s : Store) (tempUserId : String) : Store × Response :=
  match s.get tempUserId with
  | none => (s, .error 404 "Registration not found")
  | some registration =>
    let timeRemaining : Int := 10 * 60 * 1000 - (env.now - registration.createdAt)
    let minutes : Int := timeRemaining / 60000
    let seconds : Int := (timeRemaining.tmod 60000) / 1000
    (s, .status true registration.email
          (toString minutes ++ ":" ++ padStart2 (toString seconds))
          registration.verificationAttempts)

/-! ## `POST /initiate` -/

/-- The array `requiredFields`. -/
def requiredFields : List String :=
  ["email", "password", "firstName", "lastName", "dob", "street", "city", "province",
    "postalCode"]

/-- The `for (const field of requiredFields)` loop: the first field whose value
is falsy, if there is one. -/
def firstMissingField (userData : Body) : Option String :=
  requiredFields.find? (fun field => !(userData.prop field).truthy)

/-- The call `v.toLowerCase()`: only a string has the method, every other value
throws a `TypeError` (`none`). -/
def toLowerCase (env : Env) : JVal → Option String
  | .str s => some (env.toLowerCase s)
  | _ => none

/-- The test `v.length < 8`: a number or boolean has no `length`, and
`undefined < 8` is false; `null` and `undefined` throw (`none`). -/
def lengthLt8 : JVal → Option Bool
  | .str s => some (decide (utf16Length s < 8))
  | .num _ => some false
  | .bool _ => some false
  | .null => none
  | .undefined => none

/-- The test `dob > minAgeDate` on `dob = new Date(v)`: a comparison with the
`NaN` of an invalid date is false. -/
def dobAfterMinAgeDate (env : Env) (v : JVal) : Bool :=
  match env.dateValue v with
  | some t => decide (t > env.minAgeDate)
  | none => false

/-- An upper-case letter `[A-Z]`. -/
def isUpperAZ (c : Char) : Bool :=
  decide ('A'.toNat ≤ c.toNat) && decide (c.toNat ≤ 'Z'.toNat)

/-- A decimal digit `\d`. -/
def isDigit09 (c : Char) : Bool :=
  decide ('0'.toNat ≤ c.toNat) && decide (c.toNat ≤ '9'.toNat)

/-- The test `/^[A-Z]\d[A-Z] \d[A-Z]\d$/.test(s)` on a string. -/
def postalCodeRegexTestStr (s : String) : Bool :=
  match s.data with
  | [a, b, c, sp, d, e, f] =>
    isUpperAZ a && isDigit09 b && isUpperAZ c && (sp == ' ') &&
      isDigit09 d && isUpperAZ e && isDigit09 f
  | _ => false

/-- The test `postalCodeRegex.test(v)`: the value is converted to a string, and
the text of a number, boolean, `null` or `undefined` never matches. -/
def postalCodeRegexTest : JVal → Bool
  | .str s => postalCodeRegexTestStr s
  | _ => false

/-- The call `bcrypt.hash(v, 10)`: anything but a string is rejected (`none`). -/
def bcryptHash (env : Env) : JVal → Option String
  | .str s => some (env.bcryptHash s)
  | _ => none

/-- The handler of `POST /initiate`, on `req.body`. -/
def initiate (env : Env) (s : Store) (userData : Body) : Store × Response :=
  let failed : Response := .error 500 "Failed to initiate signup. Please try again."
  match firstMissingField userData with
  | some field => (s, .error 400 ("Missing required field: " ++ field))
  | none =>
    match toLowerCase env (userData.prop "email") with
    | none => (s, failed)
    | some lowerEmail =>
      match env.findOne lowerEmail with
      | .error _ => (s, failed)
      | .ok (some _) =>
        (s, .error 400 "Email already registered. Please log in or use a different email.")
      | .ok none =>
        match lengthLt8 (userData.prop "password") with
        | none => (s, failed)
        | some true => (s, .error 400 "Password must be at least 8 characters long")
        | some false =>
          if dobAfterMinAgeDate env (userData.prop "dob") then
            (s, .error 400 "You must be at least 13 years old to register")
          else if !postalCodeRegexTest (userData.prop "postalCode") then
            (s, .error 400 "Please enter a valid postal code (e.g., A1A 1A1)")
          else
            let tempUserId := toHex env.randomBytes
            let verificationCode := toString env.randomCode
            match bcryptHash env (userData.prop "password") with
            | none => (s, failed)
            | some hashedPassword =>
              let s1 := s.set tempUserId
                { userData := userData
                  password := hashedPassword
                  email := lowerEmail
                  verificationCode := verificationCode
                  createdAt := env.now
                  verificationAttempts := 0 }
              match sendVerificationEmail env (userData.prop "email") verificationCode
                  (userData.prop "firstName") with
              | .error _ => (s1, failed)
              | .ok _ => (s1, .initiated tempUserId "Verification code sent to your email")

/-- The registration with one more failed attempt. -/
def Registration.failedAttempt (r : Registration) : Registration :=
  { r with verificationAttempts := r.verificationAttempts + 1 }

/-- A run of `/verify` requests for the same key, one after the other, each with
its own environment and submitted code: the final store and the responses. -/
def verifyAll (s : Store) (id : String) : List (Env × JVal) → Store × List Response
  | [] => (s, [])
  | q :: rest =>
    let out := verify q.1 s (.str id) q.2
    let outs := verifyAll out.1 id rest
    (outs.1, out.2 :: outs.2)

/-- The stores the module can be in: what is reached from the empty map by any
sequence of requests to the four routes and runs of the cleanup, with any
request values, environments and times. -/
inductive Reachable : Store → Prop
  | empty : Reachable []
  | initiate (env : Env) (s : Store) (userData : Body) :
      Reachable s → Reachable (initiate env s userData).1
  | verify (env : Env) (s : Store) (tempUserId verificationCode : JVal) :
      Reachable s → Reachable (verify env s tempUserId verificationCode).1
  | resendCode (env : Env) (s : Store) (tempUserId : JVal) :
      Reachable s → Reachable (resendCode env s tempUserId).1
  | status (env : Env) (s : Store) (tempUserId : String) :
      Reachable s → Reachable (status env s tempUserId).1
  | cleanup (now : Int) (s : Store) :
      Reachable s → Reachable (cleanup now s)

/-- The invariant of the store: each key once, and every attempt count below 5. -/
def Store.Inv (s : Store) : Prop :=
  s.WF ∧ ∀ p ∈ s, p.2.verificationAttempts < 5

/-- Keys and codes are the non-empty strings the generators produce. -/
def Store.Generated (s : Store) : Prop :=
  ∀ p ∈ s, p.1 ≠ "" ∧ p.2.verificationCode ≠ ""

/-! ## A concrete environment and store, used to evaluate the handlers -/

/-- A sample environment: every collaborator succeeds. Dates are given as
millisecond time values, which `new Date` takes as they are; lower-casing acts
on the letters `A` to `Z`. -/
def sampleEnv : Env :=
  { now := 1700000600000
    minAgeDate := 1289520000000
    dateValue := fun v =>
      match v with
      | .num n => some n
      | _ => none
    toLowerCase := fun e => String.mk (e.data.map Char.toLower)
    findOne := fun _ => .ok none
    randomBytes := fun i => ⟨i.val, Nat.lt_trans i.isLt (by decide)⟩
    randomCode := 654321
    bcryptHash := fun p => "$2b$10$" ++ p
    sendMail := fun _ _ _ => .ok ()
    newUser := fun d =>
      { _id := "64b7f0c2a1", email := .str d.email, firstName := d.firstName,
        lastName := d.lastName, stripeCustomerId := none }
    save := fun _ => .ok ()
    createCustomer := fun _ => .ok "cus_1"
    jwtSign := fun userId _ => .ok ("jwt:" ++ userId) }

/-- The sample environment with `JWT_SECRET` not set: `jwt.sign` throws an error
that has no `code`. -/
def unsignedEnv : Env :=
  { sampleEnv with jwtSign := fun _ _ => .error { code := .undefined } }

/-- A sample request body for `/initiate`. -/
def sampleBody : Body :=
  [("email", .str "Ann@Example.com"), ("password", .str "longenough1"),
    ("firstName", .str "Ann"), ("lastName", .str "Lee"), ("dob", .num 946684800000),
    ("street", .str "12 Main Street"), ("city", .str "Toronto"), ("province", .str "ON"),
    ("postalCode", .str "M5V 2T6")]

/-- A sample pending registration created at time `createdAt` with `attempts`
failed attempts so far. -/
def sampleRegistration (createdAt : Int) (attempts : Nat) : Registration :=
  { userData := sampleBody
    password := "$2b$10$longenough1"
    email := "ann@example.com"
    verificationCode := "123456"
    createdAt := createdAt
    verificationAttempts := attempts }

/-- A sample store with one pending registration under the key `"ab12"`. -/
def sampleStore (createdAt : Int) (attempts : Nat) : Store :=
  [("ab12", sampleRegistration createdAt attempts)]

/-- The ways a payload fails the validation of `/initiate` other than by its date
of birth: a required field is missing or falsy, a user with the lower-cased
email exists, the password is a string of fewer than 8 UTF-16 code units, or
the postal code does not match `/^[A-Z]\d[A-Z] \d[A-Z]\d$/`. -/
def FailsValidation (env : Env) (userData : Body) : Prop :=
  (∃ field ∈ requiredFields, (userData.prop field).truthy = false)
    ∨ (∃ (e : String) (u : User), userData.prop "email" = .str e
        ∧ env.findOne (env.toLowerCase e) = .ok (some u))
    ∨ (∃ p : String, userData.prop "password" = .str p ∧ utf16Length p < 8)
    ∨ postalCodeRegexTest (userData.prop "postalCode") = false

/-- The sample body with a number as its email and a password of 5 characters. -/
def numericEmailBody : Body :=
  [("email", .num 5), ("password", .str "short"),
    ("firstName", .str "Ann"), ("lastName", .str "Lee"), ("dob", .num 946684800000),
    ("street", .str "12 Main Street"), ("city", .str "Toronto"), ("province", .str "ON"),
    ("postalCode", .str "M5V 2T6")]

/-- The sample body with its postal code in lower case. -/
def lowerPostalBody : Body :=
  [("email", .str "Ann@Example.com"), ("password", .str "longenough1"),
    ("firstName", .str "Ann"), ("lastName", .str "Lee"), ("dob", .num 946684800000),
    ("street", .str "12 Main Street"), ("city", .str "Toronto"), ("province", .str "ON"),
    ("postalCode", .str "m5v 2t6")]

/-- The sample body with a date of birth that is not a date. -/
def invalidDobBody : Body :=
  [("email", .str "Ann@Example.com"), ("password", .str "longenough1"),
    ("firstName", .str "Ann"), ("lastName", .str "Lee"), ("dob", .str "not a date"),
    ("street", .str "12 Main Street"), ("city", .str "Toronto"), ("province", .str "ON"),
    ("postalCode", .str "M5V 2T6")]

/-- Writing a property in an object literal, `{ ...body, field: v }`: the value
of an existing property is replaced, a new property is added. -/
def Body.assign (body : Body) (field : String) (v : JVal) : Body :=
  if body.any (fun p => p.1 == field) then
    body.map (fun p => if p.1 == field then (field, v) else p)
  else body ++ [(field, v)]

/-- The JavaScript object a `Registration` stands for, built as `/initiate`
builds it: the spread body, then `password`, `email`, `verificationCode`,
`createdAt` and `verificationAttempts`, in this order. -/
def Registration.toObject (r : Registration) : Body :=
  ((((r.userData.assign "password" (.str r.password)).assign "email" (.str r.email)).assign
    "verificationCode" (.str r.verificationCode)).assign "createdAt" (.num r.createdAt)).assign
    "verificationAttempts" (.num r.verificationAttempts)

/-- The payloads `/initiate` accepts: no required field is missing or falsy, the
email is a string for which the lookup finds no user, the password is a string
of at least 8 UTF-16 code units, the date of birth is not after the cutoff and
the postal code matches the pattern. -/
def Accepted (env : Env) (userData : Body) (email password : String) : Prop :=
  firstMissingField userData = none
    ∧ userData.prop "email" = .str email
    ∧ env.findOne (env.toLowerCase email) = .ok none
    ∧ userData.prop "password" = .str password
    ∧ ¬ utf16Length password < 8
    ∧ dobAfterMinAgeDate env (userData.prop "dob") = false
    ∧ postalCodeRegexTest (userData.prop "postalCode") = true

/-- The three property names the server sets besides `password` and `email`. -/
def serverFields : List String :=
  ["verificationCode", "createdAt", "verificationAttempts"]

/-- The sample body with `verificationCode`, `createdAt` and
`verificationAttempts` supplied by the client. -/
def tamperedBody : Body :=
  sampleBody ++
    [("verificationCode", .str "000000"), ("createdAt", .num 9999999999999),
      ("verificationAttempts", .num (-100))]

/-! ## Lemmas about the store -/

theorem Store.get_nil (k : String) : Store.get [] k = none := rfl

theorem Store.get_cons (p : String × Registration) (s : Store) (k : String) :
    Store.get (p :: s) k = if p.1 = k then some p.2 else Store.get s k := by
  unfold Store.get
  rw [List.find?_cons]
  by_cases h : p.1 = k
  · have hb : (p.1 == k) = true := by simpa using h
    simp [hb, h]
  · have hb : (p.1 == k) = false := by simpa using h
    simp [hb, h]

theorem Store.delete_cons (p : String × Registration) (s : Store) (k : String) :
    Store.delete (p :: s) k = if p.1 = k then Store.delete s k else p :: Store.delete s k := by
  unfold Store.delete
  rw [List.filter_cons]
  by_cases h : p.1 = k
  · simp [h]
  · simp [h]

theorem Store.modify_cons (p : String × Registration) (s : Store) (k : String)
    (f : Registration → Registration) :
    Store.modify (p :: s) k f
      = (if p.1 = k then (p.1, f p.2) else p) :: Store.modify s k f := by
  simp [Store.modify]

theorem Store.get_delete_self (s : Store) (k : String) : (s.delete k).get k = none := by
  induction s with
  | nil => rfl
  | cons p s ih =>
    rw [Store.delete_cons]
    by_cases h : p.1 = k
    · rw [if_pos h]; exact ih
    · rw [if_neg h, Store.get_cons, if_neg h]; exact ih

theorem Store.get_delete_ne (s : Store) (k k' : String) (hne : k' ≠ k) :
    (s.delete k).get k' = s.get k' := by
  induction s with
  | nil => rfl
  | cons p s ih =>
    rw [Store.delete_cons]
    by_cases h : p.1 = k
    · have hpk : p.1 ≠ k' := fun e => hne (e.symm.trans h)
      rw [if_pos h, Store.get_cons, if_neg hpk]; exact ih
    · rw [if_neg h, Store.get_cons, Store.get_cons, ih]

theorem Store.get_modify_self (s : Store) (k : String) (f : Registration → Registration) :
    (s.modify k f).get k = (s.get k).map f := by
  induction s with
  | nil => rfl
  | cons p s ih =>
    rw [Store.modify_cons, Store.get_cons, Store.get_cons]
    by_cases h : p.1 = k
    · simp [h]
    · simp [h, ih]

theorem Store.get_modify_ne (s : Store) (k k' : String) (f : Registration → Registration)
    (hne : k' ≠ k) : (s.modify k f).get k' = s.get k' := by
  induction s with
  | nil => rfl
  | cons p s ih =>
    rw [Store.modify_cons, Store.get_cons, Store.get_cons, ih]
    by_cases h : p.1 = k
    · have hpk : p.1 ≠ k' := fun e => hne (e.symm.trans h)
      have hkk : k ≠ k' := fun e => hne e.symm
      simp [h, hkk]
    · simp [h]

theorem Store.getJ_str (s : Store) (k : String) (r : Registration) (h : s.get k = some r) :
    s.getJ (.str k) = some (k, r) := by
  simp [Store.getJ, h]

theorem Store.getJ_none_of_get (s : Store) (v : JVal)
    (h : ∀ k, v = .str k → s.get k = none) : s.getJ v = none := by
  cases v with
  | str k => simp [Store.getJ, h k rfl]
  | _ => rfl

theorem JVal.truthy_str (k : String) (h : k ≠ "") : (JVal.str k).truthy = true := by
  simp [JVal.truthy, h]

theorem strictNe_self (a : String) : strictNe a (.str a) = false := by
  simp [strictNe]

/-! ## Lemmas about `/verify` -/

theorem attachStripeCustomer_id (env : Env) (u : User) :
    (attachStripeCustomer env u)._id = u._id := by
  unfold attachStripeCustomer
  cases env.createCustomer u with
  | error e => rfl
  | ok c => dsimp only; cases env.save { u with stripeCustomerId := some c } <;> rfl

theorem attachStripeCustomer_email (env : Env) (u : User) :
    (attachStripeCustomer env u).email = u.email := by
  unfold attachStripeCustomer
  cases env.createCustomer u with
  | error e => rfl
  | ok c => dsimp only; cases env.save { u with stripeCustomerId := some c } <;> rfl

theorem attachStripeCustomer_firstName (env : Env) (u : User) :
    (attachStripeCustomer env u).firstName = u.firstName := by
  unfold attachStripeCustomer
  cases env.createCustomer u with
  | error e => rfl
  | ok c => dsimp only; cases env.save { u with stripeCustomerId := some c } <;> rfl

theorem attachStripeCustomer_lastName (env : Env) (u : User) :
    (attachStripeCustomer env u).lastName = u.lastName := by
  unfold attachStripeCustomer
  cases env.createCustomer u with
  | error e => rfl
  | ok c => dsimp only; cases env.save { u with stripeCustomerId := some c } <;> rfl

/-- A verify for a key that is not in the store, with a truthy key and code,
answers "Registration expired or invalid" and leaves the store as it is. -/
theorem verify_not_found (env : Env) (s : Store) (tempUserId code : JVal)
    (hid : tempUserId.truthy = true) (hcode : code.truthy = true)
    (hnone : ∀ k, tempUserId = .str k → s.get k = none) :
    verify env s tempUserId code
      = (s, .error 400 "Registration expired or invalid. Please start again.") := by
  unfold verify
  rw [Store.getJ_none_of_get s tempUserId hnone]
  simp [hid, hcode]

/-- A verify whose submitted code is falsy (missing or empty) stops at the first
guard of the handler. -/
theorem verify_missing_code (env : Env) (s : Store) (tempUserId code : JVal)
    (h : code.truthy = false) :
    verify env s tempUserId code = (s, .error 400 "Missing verification data") := by
  unfold verify
  simp only [h, Bool.not_false, Bool.or_true, if_true]

/-- A verify with the stored code on a registration that has not expired, when
saving the user succeeds: the entry is deleted, and the response is decided by
the outcome of signing the token. -/
theorem verify_match_fresh (env : Env) (s : Store) (id : String) (r : Registration)
    (hid : id ≠ "") (hget : s.get id = some r) (hcode : r.verificationCode ≠ "")
    (hage : env.now - r.createdAt ≤ 10 * 60 * 1000)
    (hsave : env.save (env.newUser (verifyUserData r env.now)) = .ok ()) :
    verify env s (.str id) (.str r.verificationCode)
      = (s.delete id,
          match env.jwtSign (env.newUser (verifyUserData r env.now))._id
              (env.newUser (verifyUserData r env.now)).email with
          | .error e =>
            if e.code = .num 11000 then
              .error 400 "Email already registered. Please log in."
            else
              .error 500 "Failed to verify email. Please try again."
          | .ok token =>
            .verified
              { id := (env.newUser (verifyUserData r env.now))._id
                email := (env.newUser (verifyUserData r env.now)).email
                firstName := (env.newUser (verifyUserData r env.now)).firstName
                lastName := (env.newUser (verifyUserData r env.now)).lastName }
              token "/profile") := by
  have hnotexp : ¬ (env.now - r.createdAt > 10 * 60 * 1000) := not_lt.mpr hage
  unfold verify
  rw [Store.getJ_str s id r hget]
  simp only [JVal.truthy_str id hid, JVal.truthy_str _ hcode, strictNe_self, hsave,
    generateAuthToken, attachStripeCustomer_id, attachStripeCustomer_email,
    attachStripeCustomer_firstName, attachStripeCustomer_lastName]
  simp only [Bool.not_true, Bool.or_self, Bool.false_eq_true, if_false, if_neg hnotexp]
  cases env.jwtSign (env.newUser (verifyUserData r env.now))._id
      (env.newUser (verifyUserData r env.now)).email with
  | error e => dsimp only; split <;> rfl
  | ok token => rfl

/-- A verify with the stored code on a registration older than ten minutes. -/
theorem verify_match_expired (env : Env) (s : Store) (id : String) (r : Registration)
    (hid : id ≠ "") (hget : s.get id = some r) (hcode : r.verificationCode ≠ "")
    (hage : env.now - r.createdAt > 10 * 60 * 1000) :
    verify env s (.str id) (.str r.verificationCode)
      = (s.delete id, .error 400 "Verification code expired. Please request a new one.") := by
  unfold verify
  rw [Store.getJ_str s id r hget]
  simp only [JVal.truthy_str id hid, JVal.truthy_str _ hcode, strictNe_self]
  simp only [Bool.not_true, Bool.or_self, Bool.false_eq_true, if_false, if_pos hage]

/-- A verify with a truthy code that differs from the stored one. -/
theorem verify_mismatch (env : Env) (s : Store) (id : String) (r : Registration) (code : JVal)
    (hid : id ≠ "") (hget : s.get id = some r) (hcode : code.truthy = true)
    (hne : strictNe r.verificationCode code = true) :
    verify env s (.str id) code
      = if r.verificationAttempts + 1 ≥ 5 then
          ((s.modify id Registration.failedAttempt).delete id,
            .error 400 "Too many failed attempts. Please restart registration.")
        else
          (s.modify id Registration.failedAttempt,
            .error 400 "Invalid verification code. Please try again.") := by
  unfold verify
  rw [Store.getJ_str s id r hget]
  simp only [JVal.truthy_str id hid, hcode, hne]
  rfl

/-- Wrong codes submitted one after the other to a registration with
`5 - n` failed attempts, `n` of them: the last one is answered "Too many failed
attempts" and removes the registration, the ones before "Invalid verification code". -/
theorem verifyAll_wrong (id : String) (hid : id ≠ "") (code0 : String) :
    ∀ (reqs : List (Env × JVal)) (s : Store) (r : Registration),
      s.get id = some r → r.verificationCode = code0 → reqs ≠ [] →
      r.verificationAttempts + reqs.length = 5 →
      (∀ q ∈ reqs, q.2.truthy = true ∧ strictNe code0 q.2 = true) →
      (verifyAll s id reqs).2
          = List.replicate (reqs.length - 1)
              (Response.error 400 "Invalid verification code. Please try again.")
            ++ [Response.error 400 "Too many failed attempts. Please restart registration."]
        ∧ (verifyAll s id reqs).1.get id = none := by
  intro reqs
  induction reqs with
  | nil => intro s r _ _ h; exact absurd rfl h
  | cons q rest ih =>
    intro s r hget hc _ hlen hall
    have hq := hall q (List.mem_cons_self _ _)
    have hstep := verify_mismatch q.1 s id r q.2 hid hget hq.1 (hc ▸ hq.2)
    cases rest with
    | nil =>
      have h5 : r.verificationAttempts + 1 ≥ 5 := by simp at hlen; omega
      rw [if_pos h5] at hstep
      simp only [verifyAll, hstep, List.length_singleton, Nat.sub_self, List.replicate_zero,
        List.nil_append, Store.get_delete_self, and_self]
    | cons q2 rest2 =>
      have h5 : ¬ (r.verificationAttempts + 1 ≥ 5) := by simp at hlen; omega
      rw [if_neg h5] at hstep
      have hget1 : (s.modify id Registration.failedAttempt).get id
          = some r.failedAttempt := by
        rw [Store.get_modify_self, hget]; rfl
      have hrec := ih (s.modify id Registration.failedAttempt) r.failedAttempt hget1 hc
        (List.cons_ne_nil _ _)
        (by simp [Registration.failedAttempt] at hlen ⊢; omega)
        (fun q' hq' => hall q' (List.mem_cons_of_mem _ hq'))
      have hunf : verifyAll s id (q :: q2 :: rest2)
          = ((verifyAll (verify q.1 s (.str id) q.2).1 id (q2 :: rest2)).1,
              (verify q.1 s (.str id) q.2).2
                :: (verifyAll (verify q.1 s (.str id) q.2).1 id (q2 :: rest2)).2) := rfl
      rw [hunf, hstep]
      refine ⟨?_, hrec.2⟩
      show _ :: _ = _
      rw [hrec.1]
      simp [List.replicate_succ]

/-! ## Verification with the correct code (C1) -/

/-- C1, as stated, fails twice. When saving the user succeeds and `jwt.sign`
throws (as it does when `JWT_SECRET` is not set), the entry is deleted and the
handler answers 500, not success. And after a successful verify, a second
verify for the same id whose submitted code is the empty string is answered
"Missing verification data" by the guard at the top of the handler, not
"Registration expired or invalid". -/
theorem verify_correct_code_not_always_success :
    unsignedEnv.save
          (unsignedEnv.newUser (verifyUserData (sampleRegistration 1700000000000 0)
            unsignedEnv.now)) = .ok ()
      ∧ verify unsignedEnv (sampleStore 1700000000000 0) (.str "ab12") (.str "123456")
          = ([], .error 500 "Failed to verify email. Please try again.")
      ∧ (verify sampleEnv (sampleStore 1700000000000 0) (.str "ab12") (.str "123456")
        = ([], .verified
            { id := "64b7f0c2a1", email := .str "ann@example.com",
              firstName := .str "Ann", lastName := .str "Lee" }
            "jwt:64b7f0c2a1" "/profile"))
      ∧ (verify sampleEnv [] (.str "ab12") (.str "")
          = ([], .error 400 "Missing verification data"))
      ∧ (verify sampleEnv [] (.str "ab12") (.str "")).2
          ≠ .error 400 "Registration expired or invalid. Please start again." := by
  refine ⟨rfl, ?_⟩
  decide

/-- C1, amended: when the store holds a registration `r` under a non-empty id,
the stored code is non-empty, at most 600000 ms have passed since `createdAt`
and saving the user and signing the token both succeed, then a verify with the
stored code answers 200 with the profile of the user built from the stored
fields with `emailVerified = true` and with the token, and removes the id from
the store. Afterwards every verify for that id with a truthy (non-empty) code,
in any environment, answers 400 "Registration expired or invalid", and every
verify with a falsy (missing or empty) code answers 400 "Missing verification
data"; both leave the store as it is. -/
theorem verify_correct_code_succeeds_once (env : Env) (s : Store) (id : String)
    (r : Registration)
    (hid : id ≠ "") (hget : s.get id = some r) (hcode : r.verificationCode ≠ "")
    (hage : env.now - r.createdAt ≤ 600000)
    (hsave : env.save (env.newUser (verifyUserData r env.now)) = .ok ()) :
    (∀ token : String,
        env.jwtSign (env.newUser (verifyUserData r env.now))._id
            (env.newUser (verifyUserData r env.now)).email = .ok token →
        verify env s (.str id) (.str r.verificationCode)
          = (s.delete id,
              .verified
                { id := (env.newUser (verifyUserData r env.now))._id
                  email := (env.newUser (verifyUserData r env.now)).email
                  firstName := (env.newUser (verifyUserData r env.now)).firstName
                  lastName := (env.newUser (verifyUserData r env.now)).lastName }
                token "/profile"))
      ∧ (verifyUserData r env.now).emailVerified = true
      ∧ (verifyUserData r env.now).emailVerifiedAt = env.now
      ∧ (verifyUserData r env.now).email = r.email
      ∧ (verifyUserData r env.now).password = r.password
      ∧ (verifyUserData r env.now).firstName = r.prop "firstName"
      ∧ (verifyUserData r env.now).lastName = r.prop "lastName"
      ∧ (verifyUserData r env.now).dob = r.prop "dob"
      ∧ (verifyUserData r env.now).street = r.prop "street"
      ∧ (verifyUserData r env.now).city = r.prop "city"
      ∧ (verifyUserData r env.now).province = r.prop "province"
      ∧ (verifyUserData r env.now).postalCode = r.prop "postalCode"
      ∧ (s.delete id).get id = none
      ∧ (∀ (env2 : Env) (code2 : JVal), code2.truthy = true →
          verify env2 (s.delete id) (.str id) code2
            = (s.delete id,
                .error 400 "Registration expired or invalid. Please start again."))
      ∧ (∀ (env2 : Env) (code2 : JVal), code2.truthy = false →
          verify env2 (s.delete id) (.str id) code2
            = (s.delete id, .error 400 "Missing verification data")) := by
  have hv := verify_match_fresh env s id r hid hget hcode hage hsave
  refine ⟨?_, rfl, rfl, rfl, rfl, rfl, rfl, rfl, rfl, rfl, rfl, rfl,
    Store.get_delete_self s id, ?_, ?_⟩
  · intro token htoken
    rw [hv, htoken]
  · intro env2 code2 hc2
    refine verify_not_found env2 (s.delete id) (.str id) code2 (JVal.truthy_str id hid) hc2 ?_
    intro k hk
    cases hk
    exact Store.get_delete_self s id
  · intro env2 code2 hc2
    exact verify_missing_code env2 (s.delete id) (.str id) code2 hc2

/-- Witness for C1: the sample registration, verified exactly ten minutes after
its creation. -/
theorem verify_correct_code_succeeds_once_witness :
    verify sampleEnv (sampleStore 1700000000000 0) (.str "ab12") (.str "123456")
        = ([], .verified
            { id := "64b7f0c2a1", email := .str "ann@example.com",
              firstName := .str "Ann", lastName := .str "Lee" }
            "jwt:64b7f0c2a1" "/profile")
      ∧ verify sampleEnv [] (.str "ab12") (.str "123456")
        = ([], .error 400 "Registration expired or invalid. Please start again.") :=
  have h := verify_correct_code_succeeds_once sampleEnv (sampleStore 1700000000000 0) "ab12"
    (sampleRegistration 1700000000000 0) (by decide) rfl (by decide) (by decide) rfl
  ⟨h.1 "jwt:64b7f0c2a1" rfl,
    h.2.2.2.2.2.2.2.2.2.2.2.2.2.1 sampleEnv (.str "123456") rfl⟩

/-! ## Verification with a wrong code (C2) -/

/-- C2, as stated, fails: a verify whose submitted code is the empty string
differs from the stored code, yet it is answered "Missing verification data"
and the attempt count stays at 0. -/
theorem verify_with_empty_code_counts_no_attempt :
    (JVal.str "") ≠ JVal.str (sampleRegistration 1700000000000 0).verificationCode
      ∧ verify sampleEnv (sampleStore 1700000000000 0) (.str "ab12") (.str "")
          = (sampleStore 1700000000000 0, .error 400 "Missing verification data")
      ∧ (verify sampleEnv (sampleStore 1700000000000 0) (.str "ab12") (.str "")).1.get "ab12"
          = some (sampleRegistration 1700000000000 0)
      ∧ (sampleRegistration 1700000000000 0).verificationAttempts = 0 := by
  decide

/-- C2, amended: for a registration `r` stored under a non-empty id with attempt
count `k`, a verify with a truthy (non-empty) code that differs from the stored
code sets the count to `k + 1`; when `k + 1 < 5` it answers "Invalid
verification code" and the entry stays, with only its count changed; when
`k + 1 ≥ 5` it answers "Too many failed attempts" and the entry is deleted;
other keys are untouched. Starting from count 0, five such submissions in a row
are answered four times "Invalid verification code" and then "Too many failed
attempts", after which the id is gone and every verify with a truthy code, the
stored one included, answers "Registration expired or invalid". A verify with
a falsy (missing or empty) code answers "Missing verification data" and leaves
the store, the attempt count included, as it is. -/
theorem verify_wrong_code_counts_attempt (env : Env) (s : Store) (id : String)
    (r : Registration) (code : JVal)
    (hid : id ≠ "") (hget : s.get id = some r) (hcode : code.truthy = true)
    (hne : strictNe r.verificationCode code = true) :
    (r.verificationAttempts + 1 < 5 →
        (verify env s (.str id) code).2
            = .error 400 "Invalid verification code. Please try again."
          ∧ (verify env s (.str id) code).1.get id
            = some { r with verificationAttempts := r.verificationAttempts + 1 })
      ∧ (r.verificationAttempts + 1 ≥ 5 →
        (verify env s (.str id) code).2
            = .error 400 "Too many failed attempts. Please restart registration."
          ∧ (verify env s (.str id) code).1.get id = none)
      ∧ (∀ other : String, other ≠ id →
          (verify env s (.str id) code).1.get other = s.get other)
      ∧ (r.verificationAttempts = 0 →
          ∀ reqs : List (Env × JVal), reqs.length = 5 →
            (∀ q ∈ reqs, q.2.truthy = true ∧ strictNe r.verificationCode q.2 = true) →
            (verifyAll s id reqs).2
                = [.error 400 "Invalid verification code. Please try again.",
                    .error 400 "Invalid verification code. Please try again.",
                    .error 400 "Invalid verification code. Please try again.",
                    .error 400 "Invalid verification code. Please try again.",
                    .error 400 "Too many failed attempts. Please restart registration."]
              ∧ (verifyAll s id reqs).1.get id = none
              ∧ ∀ (env2 : Env) (code2 : JVal), code2.truthy = true →
                  verify env2 (verifyAll s id reqs).1 (.str id) code2
                    = ((verifyAll s id reqs).1,
                        .error 400 "Registration expired or invalid. Please start again."))
      ∧ (∀ (env2 : Env) (code2 : JVal), code2.truthy = false →
          verify env2 s (.str id) code2 = (s, .error 400 "Missing verification data")) := by
  have hstep := verify_mismatch env s id r code hid hget hcode hne
  refine ⟨?_, ?_, ?_, ?_, fun env2 code2 h2 => verify_missing_code env2 s (.str id) code2 h2⟩
  · intro hlt
    have h5 : ¬ (r.verificationAttempts + 1 ≥ 5) := by omega
    rw [if_neg h5] at hstep
    rw [hstep]
    refine ⟨rfl, ?_⟩
    show (s.modify id Registration.failedAttempt).get id = _
    rw [Store.get_modify_self, hget]; rfl
  · intro h5
    rw [if_pos h5] at hstep
    rw [hstep]
    exact ⟨rfl, Store.get_delete_self _ id⟩
  · intro other hother
    rw [hstep]
    by_cases h5 : r.verificationAttempts + 1 ≥ 5
    · rw [if_pos h5]
      show ((s.modify id Registration.failedAttempt).delete id).get other = _
      rw [Store.get_delete_ne _ id other hother, Store.get_modify_ne _ id other _ hother]
    · rw [if_neg h5]
      show (s.modify id Registration.failedAttempt).get other = _
      rw [Store.get_modify_ne _ id other _ hother]
  · intro h0 reqs hlen hall
    have hnil : reqs ≠ [] := by
      intro e; rw [e] at hlen; simp at hlen
    have hrun := verifyAll_wrong id hid r.verificationCode reqs s r hget rfl hnil
      (by omega) hall
    refine ⟨?_, hrun.2, ?_⟩
    · rw [hrun.1, hlen]; rfl
    · intro env2 code2 hc2
      refine verify_not_found env2 _ (.str id) code2 (JVal.truthy_str id hid) hc2 ?_
      intro k hk
      cases hk
      exact hrun.2

/-- Witness for C2: a wrong code on the sample registration with 3 earlier
failed attempts. -/
theorem verify_wrong_code_counts_attempt_witness :
    (verify sampleEnv (sampleStore 1700000000000 3) (.str "ab12") (.str "000000")).2
        = .error 400 "Invalid verification code. Please try again."
      ∧ (verify sampleEnv (sampleStore 1700000000000 3) (.str "ab12") (.str "000000")).1.get
          "ab12" = some (sampleRegistration 1700000000000 4) :=
  (verify_wrong_code_counts_attempt sampleEnv (sampleStore 1700000000000 3) "ab12"
    (sampleRegistration 1700000000000 3) (.str "000000") (by decide) rfl rfl rfl).1
    (by decide)

/-! ## Verification after expiry (C3) -/

/-- C3, as stated, fails: a wrong code submitted long after the ten minutes is
answered "Invalid verification code", and the entry stays in the store with one
more attempt; the age is only looked at once the code has matched. -/
theorem verify_wrong_code_after_expiry :
    sampleEnv.now - (sampleRegistration 1600000000000 0).createdAt > 600000
      ∧ verify sampleEnv (sampleStore 1600000000000 0) (.str "ab12") (.str "000000")
          = (sampleStore 1600000000000 1,
              .error 400 "Invalid verification code. Please try again.")
      ∧ (verify sampleEnv (sampleStore 1600000000000 0) (.str "ab12") (.str "000000")).2
          ≠ .error 400 "Verification code expired. Please request a new one." := by
  decide

/-- C3, amended: for a registration stored under a non-empty id, whatever its
attempt count, a verify with the stored (non-empty) code at a time with
`now - createdAt > 600000` answers 400 "Verification code expired" and removes
the entry from the store. -/
theorem verify_expired_code (env : Env) (s : Store) (id : String) (r : Registration)
    (hid : id ≠ "") (hget : s.get id = some r) (hcode : r.verificationCode ≠ "")
    (hage : env.now - r.createdAt > 600000) :
    verify env s (.str id) (.str r.verificationCode)
        = (s.delete id, .error 400 "Verification code expired. Please request a new one.")
      ∧ (verify env s (.str id) (.str r.verificationCode)).1.get id = none := by
  have h := verify_match_expired env s id r hid hget hcode hage
  rw [h]
  exact ⟨rfl, Store.get_delete_self s id⟩

/-- Witness for C3: the stored code submitted ten minutes and one second after
`createdAt`, on a registration with 4 failed attempts. -/
theorem verify_expired_code_witness :
    verify sampleEnv (sampleStore 1699999999000 4) (.str "ab12") (.str "123456")
      = ([], .error 400 "Verification code expired. Please request a new one.") :=
  (verify_expired_code sampleEnv (sampleStore 1699999999000 4) "ab12"
    (sampleRegistration 1699999999000 4) (by decide) rfl (by decide) (by decide)).1

/-! ## The invariant of the store (C4) -/

theorem Store.mem_of_get (s : Store) (k : String) (r : Registration)
    (h : s.get k = some r) : (k, r) ∈ s := by
  induction s with
  | nil => simp [Store.get_nil] at h
  | cons p s ih =>
    rw [Store.get_cons] at h
    by_cases hk : p.1 = k
    · rw [if_pos hk] at h
      have : p = (k, r) := by
        cases p; simp at hk h; simp [hk, h]
      rw [this]; exact List.mem_cons_self _ _
    · rw [if_neg hk] at h
      exact List.mem_cons_of_mem _ (ih h)

theorem Store.get_eq_none_of_not_mem_keys (s : Store) (k : String)
    (h : k ∉ s.map Prod.fst) : s.get k = none := by
  induction s with
  | nil => rfl
  | cons p s ih =>
    simp only [List.map_cons, List.mem_cons, not_or] at h
    rw [Store.get_cons, if_neg (fun e => h.1 e.symm)]
    exact ih h.2

theorem Store.mem_keys_of_get (s : Store) (k : String) (r : Registration)
    (h : s.get k = some r) : k ∈ s.map Prod.fst :=
  List.mem_map.mpr ⟨(k, r), Store.mem_of_get s k r h, rfl⟩

theorem Store.get_of_mem (s : Store) (hwf : s.WF) (k : String) (r : Registration)
    (h : (k, r) ∈ s) : s.get k = some r := by
  induction s with
  | nil => simp at h
  | cons p s ih =>
    have hnd : p.1 ∉ s.map Prod.fst ∧ (s.map Prod.fst).Nodup := by
      simpa [Store.WF] using hwf
    rw [Store.get_cons]
    rcases List.mem_cons.mp h with h | h
    · rw [← h]; simp
    · have hk : p.1 ≠ k := by
        intro e
        exact hnd.1 (e ▸ List.mem_map.mpr ⟨(k, r), h, rfl⟩)
      rw [if_neg hk]
      exact ih hnd.2 h

theorem Store.delete_sublist (s : Store) (k : String) : List.Sublist (s.delete k) s :=
  List.filter_sublist s

theorem Store.WF_delete (s : Store) (k : String) (hwf : s.WF) : (s.delete k).WF :=
  List.Nodup.sublist ((Store.delete_sublist s k).map Prod.fst) hwf

theorem Store.keys_modify (s : Store) (k : String) (f : Registration → Registration) :
    (s.modify k f).map Prod.fst = s.map Prod.fst := by
  induction s with
  | nil => rfl
  | cons p s ih =>
    rw [Store.modify_cons, List.map_cons, List.map_cons, ih]
    by_cases h : p.1 = k
    · rw [if_pos h]
    · rw [if_neg h]

theorem Store.WF_modify (s : Store) (k : String) (f : Registration → Registration)
    (hwf : s.WF) : (s.modify k f).WF := by
  unfold Store.WF
  rw [Store.keys_modify]
  exact hwf

theorem Store.mem_modify (s : Store) (k : String) (f : Registration → Registration)
    (p : String × Registration) (h : p ∈ s.modify k f) :
    ∃ q ∈ s, p = if q.1 = k then (q.1, f q.2) else q := by
  induction s with
  | nil => simp [Store.modify] at h
  | cons q s ih =>
    rw [Store.modify_cons] at h
    rcases List.mem_cons.mp h with h | h
    · exact ⟨q, List.mem_cons_self _ _, h⟩
    · obtain ⟨q2, hq2, e⟩ := ih h
      exact ⟨q2, List.mem_cons_of_mem _ hq2, e⟩

theorem Store.set_eq_modify (s : Store) (k : String) (v r : Registration)
    (h : s.get k = some r) : s.set k v = s.modify k (fun _ => v) := by
  unfold Store.set Store.modify
  rw [h]
  simp only [Option.isSome_some, if_true]
  apply List.map_congr_left
  intro p _
  by_cases hk : p.1 = k
  · simp [hk]
  · simp [hk]

theorem Store.set_eq_append (s : Store) (k : String) (v : Registration)
    (h : s.get k = none) : s.set k v = s ++ [(k, v)] := by
  unfold Store.set
  rw [h]
  simp

theorem Store.not_mem_keys_of_get_none (s : Store) (k : String) (h : s.get k = none) :
    k ∉ s.map Prod.fst := by
  intro hk
  obtain ⟨p, hp, e⟩ := List.mem_map.mp hk
  induction s with
  | nil => simp at hp
  | cons q s ih =>
    rw [Store.get_cons] at h
    by_cases hq : q.1 = k
    · rw [if_pos hq] at h; cases h
    · rw [if_neg hq] at h
      rcases List.mem_cons.mp hp with hp | hp
      · exact hq (hp ▸ e)
      · exact ih h (List.mem_map.mpr ⟨p, hp, e⟩) hp

theorem Store.Inv_delete (s : Store) (k : String) (h : s.Inv) : (s.delete k).Inv :=
  ⟨Store.WF_delete s k h.1, fun p hp => h.2 p ((Store.delete_sublist s k).subset hp)⟩

theorem Store.Inv_modify (s : Store) (k : String) (f : Registration → Registration)
    (h : s.Inv)
    (hf : ∀ r, s.get k = some r → (f r).verificationAttempts < 5) : (s.modify k f).Inv := by
  refine ⟨Store.WF_modify s k f h.1, ?_⟩
  intro p hp
  obtain ⟨q, hq, e⟩ := Store.mem_modify s k f p hp
  by_cases hk : q.1 = k
  · rw [if_pos hk] at e
    rw [e]
    have hget : s.get k = some q.2 := Store.get_of_mem s h.1 k q.2 (by rw [← hk]; exact hq)
    exact hf q.2 hget
  · rw [if_neg hk] at e
    rw [e]; exact h.2 q hq

theorem Store.Inv_set (s : Store) (k : String) (v : Registration) (h : s.Inv)
    (hv : v.verificationAttempts < 5) : (s.set k v).Inv := by
  cases hg : s.get k with
  | some r =>
    rw [Store.set_eq_modify s k v r hg]
    exact Store.Inv_modify s k _ h (fun _ _ => hv)
  | none =>
    rw [Store.set_eq_append s k v hg]
    refine ⟨?_, ?_⟩
    · unfold Store.WF
      rw [List.map_append, List.nodup_append]
      refine ⟨h.1, by simp, ?_⟩
      intro a ha hb
      simp only [List.map_cons, List.map_nil, List.mem_singleton] at hb
      exact Store.not_mem_keys_of_get_none s k hg (hb ▸ ha)
    · intro p hp
      rcases List.mem_append.mp hp with hp | hp
      · exact h.2 p hp
      · simp only [List.mem_singleton] at hp
        rw [hp]; exact hv

theorem Store.getJ_eq_some (s : Store) (v : JVal) (k : String) (r : Registration)
    (h : s.getJ v = some (k, r)) : v = .str k ∧ s.get k = some r := by
  cases v with
  | str k2 =>
    simp only [Store.getJ] at h
    cases hg : s.get k2 with
    | none => rw [hg] at h; simp at h
    | some r2 =>
      rw [hg] at h
      simp only [Option.map_some', Option.some.injEq, Prod.mk.injEq] at h
      rw [← h.1, ← h.2]
      exact ⟨rfl, hg⟩
  | undefined => simp [Store.getJ] at h
  | null => simp [Store.getJ] at h
  | bool b => simp [Store.getJ] at h
  | num n => simp [Store.getJ] at h

theorem cleanup_Inv (now : Int) (s : Store) (h : s.Inv) : (cleanup now s).Inv := by
  unfold cleanup
  suffices hgen : ∀ (l : List (String × Registration)) (acc : Store), acc.Inv →
      (l.foldl (fun acc p =>
        if now - p.2.createdAt > 10 * 60 * 1000 then acc.delete p.1 else acc) acc).Inv from
    hgen s s h
  intro l
  induction l with
  | nil => intro acc hacc; exact hacc
  | cons p l ih =>
    intro acc hacc
    rw [List.foldl_cons]
    apply ih
    by_cases hp : now - p.2.createdAt > 10 * 60 * 1000
    · rw [if_pos hp]; exact Store.Inv_delete acc p.1 hacc
    · rw [if_neg hp]; exact hacc

theorem Store.Inv_delete_modify (s : Store) (k : String) (f : Registration → Registration)
    (h : s.Inv) : ((s.modify k f).delete k).Inv := by
  refine ⟨Store.WF_delete _ k (Store.WF_modify s k f h.1), ?_⟩
  intro p hp
  have hp2 : p ∈ s.modify k f ∧ p.1 ≠ k := by
    simpa [Store.delete] using hp
  obtain ⟨q, hq, e⟩ := Store.mem_modify s k f p hp2.1
  by_cases hk : q.1 = k
  · rw [if_pos hk] at e
    exact absurd (by rw [e]; exact hk) hp2.2
  · rw [if_neg hk] at e
    rw [e]; exact h.2 q hq

theorem verify_Inv (env : Env) (s : Store) (tempUserId verificationCode : JVal)
    (h : s.Inv) : (verify env s tempUserId verificationCode).1.Inv := by
  unfold verify
  split
  · exact h
  · split
    · exact h
    · rename_i key registration hg
      have hget := (Store.getJ_eq_some s tempUserId key registration hg).2
      split
      · dsimp only
        split
        · exact Store.Inv_delete_modify s key _ h
        · rename_i hlt
          show Store.Inv (s.modify key Registration.failedAttempt)
          refine Store.Inv_modify s key _ h ?_
          intro r hr
          rw [hget] at hr
          cases hr
          show registration.verificationAttempts + 1 < 5
          omega
      · split
        · exact Store.Inv_delete s key h
        · dsimp only
          split
          · split
            · exact h
            · exact h
          · split
            · split
              · exact Store.Inv_delete s key h
              · exact Store.Inv_delete s key h
            · exact Store.Inv_delete s key h

theorem resendCode_Inv (env : Env) (s : Store) (tempUserId : JVal) (h : s.Inv) :
    (resendCode env s tempUserId).1.Inv := by
  unfold resendCode
  split
  · exact h
  · split
    · exact h
    · rename_i key registration hg
      dsimp only
      have hm : (s.modify key (fun r => { r with
          verificationCode := toString env.randomCode
          createdAt := env.now
          verificationAttempts := 0 })).Inv :=
        Store.Inv_modify s key _ h (fun _ _ => Nat.zero_lt_succ 4)
      split
      · exact hm
      · exact hm

theorem initiate_Inv (env : Env) (s : Store) (userData : Body) (h : s.Inv) :
    (initiate env s userData).1.Inv := by
  unfold initiate
  dsimp only
  repeat' split
  all_goals first
    | exact h
    | exact Store.Inv_set s _ _ h (Nat.zero_lt_succ 4)

/-- Every reachable store satisfies the invariant. -/
theorem reachable_inv (s : Store) (h : Reachable s) : s.Inv := by
  induction h with
  | empty => exact ⟨List.nodup_nil, fun p hp => by simp at hp⟩
  | initiate env s userData _ ih => exact initiate_Inv env s userData ih
  | verify env s tempUserId verificationCode _ ih =>
    exact verify_Inv env s tempUserId verificationCode ih
  | resendCode env s tempUserId _ ih => exact resendCode_Inv env s tempUserId ih
  | status env s tempUserId _ ih =>
    have : (status env s tempUserId).1 = s := by
      unfold status; split <;> rfl
    rw [this]; exact ih
  | cleanup now s _ ih => exact cleanup_Inv now s ih

/-- C4: in every store reachable from the empty store by any sequence of
initiate, verify, resend, status and cleanup steps, every entry present has an
attempt count below 5 (and every key occurs once); a step that brings a count
to 5 deletes the entry in that same step. -/
theorem reachable_attempts_below_threshold (s : Store) (h : Reachable s) :
    (∀ p ∈ s, p.2.verificationAttempts < 5)
      ∧ (∀ (id : String) (r : Registration), s.get id = some r →
          0 ≤ r.verificationAttempts ∧ r.verificationAttempts < 5)
      ∧ (∀ (env : Env) (id : String) (r : Registration) (code : JVal),
          s.get id = some r → id ≠ "" → code.truthy = true →
          strictNe r.verificationCode code = true → r.verificationAttempts + 1 = 5 →
          (verify env s (.str id) code).1.get id = none) := by
  have hinv := reachable_inv s h
  refine ⟨hinv.2, ?_, ?_⟩
  · intro id r hget
    exact ⟨Nat.zero_le _, hinv.2 (id, r) (Store.mem_of_get s id r hget)⟩
  · intro env id r code hget hid hcode hne h5
    rw [verify_mismatch env s id r code hid hget hcode hne, if_pos (by omega)]
    exact Store.get_delete_self _ id

/-- Witness for C4: the store after four wrong codes on a fresh registration
holds the registration with 4 attempts. -/
theorem reachable_attempts_below_threshold_witness :
    (verifyAll (initiate sampleEnv [] sampleBody).1 "000102030405060708090a0b0c0d0e0f"
        [(sampleEnv, .str "000000"), (sampleEnv, .str "000000"), (sampleEnv, .str "000000"),
          (sampleEnv, .str "000000")]).1.get "000102030405060708090a0b0c0d0e0f"
        = some
            { userData := sampleBody
              password := "$2b$10$longenough1"
              email := "ann@example.com"
              verificationCode := "654321"
              createdAt := 1700000600000
              verificationAttempts := 4 }
      ∧ (4 : Nat) < 5 :=
  ⟨rfl,
    ((reachable_attempts_below_threshold
      (verifyAll (initiate sampleEnv [] sampleBody).1 "000102030405060708090a0b0c0d0e0f"
        [(sampleEnv, .str "000000"), (sampleEnv, .str "000000"), (sampleEnv, .str "000000"),
          (sampleEnv, .str "000000")]).1
      (Reachable.verify sampleEnv _ (.str "000102030405060708090a0b0c0d0e0f") (.str "000000")
        (Reachable.verify sampleEnv _ (.str "000102030405060708090a0b0c0d0e0f")
          (.str "000000")
          (Reachable.verify sampleEnv _ (.str "000102030405060708090a0b0c0d0e0f")
            (.str "000000")
            (Reachable.verify sampleEnv _ (.str "000102030405060708090a0b0c0d0e0f")
              (.str "000000")
              (Reachable.initiate sampleEnv [] sampleBody Reachable.empty)))))).2.1
      "000102030405060708090a0b0c0d0e0f"
      { userData := sampleBody
        password := "$2b$10$longenough1"
        email := "ann@example.com"
        verificationCode := "654321"
        createdAt := 1700000600000
        verificationAttempts := 4 }
      rfl).2⟩

/-! ## Generated keys and codes are never empty -/

theorem toHex_ne_empty (bytes : Fin 16 → Fin 256) : toHex bytes ≠ "" := by
  unfold toHex
  intro h
  have := congrArg String.length h
  simp [String.length, List.length_flatMap] at this

theorem toDigitsCore_ne_nil (b : Nat) :
    ∀ (fuel n : Nat) (ds : List Char), ds ≠ [] → Nat.toDigitsCore b fuel n ds ≠ [] := by
  intro fuel
  induction fuel with
  | zero => intro n ds h; simpa [Nat.toDigitsCore] using h
  | succ f ih =>
    intro n ds h
    simp only [Nat.toDigitsCore]
    split
    · simp
    · exact ih _ _ (by simp)

theorem toString_nat_ne_empty (n : Nat) : toString n ≠ "" := by
  show Nat.repr n ≠ ""
  unfold Nat.repr Nat.toDigits
  intro h
  have h2 : Nat.toDigitsCore 10 (n + 1) n [] = [] := by
    have := congrArg String.data h
    simpa [List.asString] using this
  simp only [Nat.toDigitsCore] at h2
  split at h2
  · simp at h2
  · exact toDigitsCore_ne_nil 10 _ _ _ (by simp) h2

theorem Store.Generated_delete (s : Store) (k : String) (h : s.Generated) :
    (s.delete k).Generated :=
  fun p hp => h p ((Store.delete_sublist s k).subset hp)

theorem Store.Generated_modify (s : Store) (k : String) (f : Registration → Registration)
    (h : s.Generated) (hf : ∀ r, (f r).verificationCode ≠ "") :
    (s.modify k f).Generated := by
  intro p hp
  obtain ⟨q, hq, e⟩ := Store.mem_modify s k f p hp
  by_cases hk : q.1 = k
  · rw [if_pos hk] at e
    rw [e]
    exact ⟨(h q hq).1, hf q.2⟩
  · rw [if_neg hk] at e
    rw [e]; exact h q hq

theorem Store.Generated_modify_attempts (s : Store) (k : String) (h : s.Generated) :
    (s.modify k Registration.failedAttempt).Generated := by
  intro p hp
  obtain ⟨q, hq, e⟩ := Store.mem_modify s k _ p hp
  by_cases hk : q.1 = k
  · rw [if_pos hk] at e
    rw [e]
    exact h q hq
  · rw [if_neg hk] at e
    rw [e]; exact h q hq

theorem Store.Generated_set (s : Store) (k : String) (v : Registration) (h : s.Generated)
    (hk : k ≠ "") (hv : v.verificationCode ≠ "") : (s.set k v).Generated := by
  cases hg : s.get k with
  | some r =>
    rw [Store.set_eq_modify s k v r hg]
    exact Store.Generated_modify s k _ h (fun _ => hv)
  | none =>
    rw [Store.set_eq_append s k v hg]
    intro p hp
    rcases List.mem_append.mp hp with hp | hp
    · exact h p hp
    · simp only [List.mem_singleton] at hp
      rw [hp]; exact ⟨hk, hv⟩

theorem cleanup_Generated (now : Int) (s : Store) (h : s.Generated) :
    (cleanup now s).Generated := by
  unfold cleanup
  suffices hgen : ∀ (l : List (String × Registration)) (acc : Store), acc.Generated →
      (l.foldl (fun acc p =>
        if now - p.2.createdAt > 10 * 60 * 1000 then acc.delete p.1 else acc)
        acc).Generated from
    hgen s s h
  intro l
  induction l with
  | nil => intro acc hacc; exact hacc
  | cons p l ih =>
    intro acc hacc
    rw [List.foldl_cons]
    apply ih
    by_cases hp : now - p.2.createdAt > 10 * 60 * 1000
    · rw [if_pos hp]; exact Store.Generated_delete acc p.1 hacc
    · rw [if_neg hp]; exact hacc

theorem verify_Generated (env : Env) (s : Store) (tempUserId verificationCode : JVal)
    (h : s.Generated) : (verify env s tempUserId verificationCode).1.Generated := by
  unfold verify
  split
  · exact h
  · split
    · exact h
    · rename_i key registration hg
      split
      · dsimp only
        split
        · exact Store.Generated_delete _ key (Store.Generated_modify_attempts s key h)
        · exact Store.Generated_modify_attempts s key h
      · split
        · exact Store.Generated_delete s key h
        · dsimp only
          split
          · split
            · exact h
            · exact h
          · split
            · split
              · exact Store.Generated_delete s key h
              · exact Store.Generated_delete s key h
            · exact Store.Generated_delete s key h

theorem resendCode_Generated (env : Env) (s : Store) (tempUserId : JVal)
    (h : s.Generated) : (resendCode env s tempUserId).1.Generated := by
  unfold resendCode
  split
  · exact h
  · split
    · exact h
    · rename_i key registration hg
      dsimp only
      have hm : (s.modify key (fun r => { r with
          verificationCode := toString env.randomCode
          createdAt := env.now
          verificationAttempts := 0 })).Generated :=
        Store.Generated_modify s key _ h (fun _ => toString_nat_ne_empty env.randomCode)
      split
      · exact hm
      · exact hm

theorem initiate_Generated (env : Env) (s : Store) (userData : Body) (h : s.Generated) :
    (initiate env s userData).1.Generated := by
  unfold initiate
  dsimp only
  repeat' split
  all_goals first
    | exact h
    | exact Store.Generated_set s _ _ h (toHex_ne_empty env.randomBytes)
        (toString_nat_ne_empty env.randomCode)

/-- In every reachable store the keys and the stored codes are non-empty
strings. -/
theorem reachable_generated (s : Store) (h : Reachable s) : s.Generated := by
  induction h with
  | empty => intro p hp; simp at hp
  | initiate env s userData _ ih => exact initiate_Generated env s userData ih
  | verify env s tempUserId verificationCode _ ih =>
    exact verify_Generated env s tempUserId verificationCode ih
  | resendCode env s tempUserId _ ih => exact resendCode_Generated env s tempUserId ih
  | status env s tempUserId _ ih =>
    have : (SignupVerification.status env s tempUserId).1 = s := by
      unfold SignupVerification.status; split <;> rfl
    rw [this]; exact ih
  | cleanup now s _ ih => exact cleanup_Generated now s ih

/-- A registration found in a reachable store has a non-empty key and a
non-empty code. -/
theorem reachable_get_nonempty (s : Store) (h : Reachable s) (id : String)
    (r : Registration) (hget : s.get id = some r) : id ≠ "" ∧ r.verificationCode ≠ "" :=
  reachable_generated s h (id, r) (Store.mem_of_get s id r hget)

/-! ## Resending the code (C5) -/

/-- C5, as stated, fails: the empty string is an id that is not in the store,
and a resend for it is answered 400 "Invalid request" by the guard at the top
of the handler, not "Registration expired". -/
theorem resend_with_empty_id :
    (sampleStore 1700000000000 2).get "" = none
      ∧ resendCode sampleEnv (sampleStore 1700000000000 2) (.str "")
          = (sampleStore 1700000000000 2, .error 400 "Invalid request")
      ∧ (resendCode sampleEnv (sampleStore 1700000000000 2) (.str "")).2
          ≠ .error 400 "Registration expired. Please start again." := by
  decide

/-- C5, amended: for a non-empty id under which the store holds a registration
`r`, whatever its attempt count and the time, a resend leaves the id in the
store with `verificationAttempts = 0`, `createdAt = now`, `verificationCode` the
newly generated code and every other field of `r` as it was, and leaves every
other key as it was; for a truthy (non-empty) id that is not in the store, it
answers 400 "Registration expired" and leaves the store unchanged; for a falsy
(missing or empty) id it answers 400 "Invalid request" and leaves the store
unchanged. -/
theorem resend_resets_registration (env : Env) (s : Store) (id : String)
    (hid : id ≠ "") :
    (∀ r : Registration, s.get id = some r →
        (resendCode env s (.str id)).1.get id
            = some { r with
                verificationCode := toString env.randomCode
                createdAt := env.now
                verificationAttempts := 0 }
          ∧ (∀ other : String, other ≠ id →
              (resendCode env s (.str id)).1.get other = s.get other)
          ∧ ((resendCode env s (.str id)).1.map Prod.fst = s.map Prod.fst))
      ∧ (s.get id = none →
          resendCode env s (.str id)
            = (s, .error 400 "Registration expired. Please start again."))
      ∧ (∀ v : JVal, v.truthy = false →
          resendCode env s v = (s, .error 400 "Invalid request")) := by
  have htr := JVal.truthy_str id hid
  refine ⟨?_, ?_, ?_⟩
  · intro r hget
    have hstore : (resendCode env s (.str id)).1
        = s.modify id (fun r => { r with
            verificationCode := toString env.randomCode
            createdAt := env.now
            verificationAttempts := 0 }) := by
      unfold resendCode
      rw [Store.getJ_str s id r hget]
      simp only [htr, Bool.not_true, Bool.false_eq_true, if_false]
      split <;> rfl
    rw [hstore]
    refine ⟨?_, ?_, Store.keys_modify s id _⟩
    · rw [Store.get_modify_self, hget]; rfl
    · intro other hother
      exact Store.get_modify_ne s id other _ hother
  · intro hnone
    unfold resendCode
    have : s.getJ (.str id) = none := by simp [Store.getJ, hnone]
    rw [this]
    simp only [htr, Bool.not_true, Bool.false_eq_true, if_false]
  · intro v hv
    unfold resendCode
    simp only [hv, Bool.not_false, if_true]

/-- Witness for C5: a resend for the sample registration with 3 failed
attempts, long after its creation. -/
theorem resend_resets_registration_witness :
    (resendCode sampleEnv (sampleStore 1600000000000 3) (.str "ab12")).1.get "ab12"
      = some { sampleRegistration 1600000000000 3 with
          verificationCode := "654321"
          createdAt := 1700000600000
          verificationAttempts := 0 } :=
  ((resend_resets_registration sampleEnv (sampleStore 1600000000000 3) "ab12"
    (by decide)).1 (sampleRegistration 1600000000000 3) rfl).1

/-! ## The periodic cleanup (C6) -/

theorem foldl_delete_eq_filter (e : String × Registration → Prop) [DecidablePred e]
    (l : List (String × Registration)) :
    ∀ acc : Store,
      l.foldl (fun acc p => if e p then Store.delete acc p.1 else acc) acc
        = acc.filter (fun p => !(l.any (fun q => decide (e q) && q.1 == p.1))) := by
  induction l with
  | nil => intro acc; simp
  | cons q l ih =>
    intro acc
    rw [List.foldl_cons, ih]
    by_cases hq : e q
    · rw [if_pos hq]
      unfold Store.delete
      rw [List.filter_filter]
      apply List.filter_congr
      intro p _
      simp only [List.any_cons, hq, decide_True, Bool.true_and, Bool.not_or]
      by_cases hk : p.1 = q.1
      · simp [hk]
      · have hk2 : ¬ q.1 = p.1 := fun h => hk h.symm
        have h1 : (p.1 != q.1) = true := bne_iff_ne.mpr hk
        have h2 : (q.1 == p.1) = false := beq_eq_false_iff_ne.mpr hk2
        rw [h1, h2, Bool.and_true, Bool.not_false, Bool.true_and]
    · rw [if_neg hq]
      apply List.filter_congr
      intro p _
      simp only [List.any_cons, hq, decide_False, Bool.false_and, Bool.false_or]

theorem filter_any_eq_filter (e : String × Registration → Prop) [DecidablePred e]
    (s : Store) (hwf : s.WF) :
    s.filter (fun p => !(s.any (fun q => decide (e q) && q.1 == p.1)))
      = s.filter (fun p => !decide (e p)) := by
  apply List.filter_congr
  intro p hp
  congr 1
  by_cases hexp : e p
  · rw [decide_eq_true hexp, List.any_eq_true]
    exact ⟨p, hp, by simp [hexp]⟩
  · rw [decide_eq_false hexp, List.any_eq_false]
    intro q hq
    by_cases hk : q.1 = p.1
    · have hgq : Store.get s q.1 = some q.2 := Store.get_of_mem s hwf q.1 q.2 hq
      have hgp : Store.get s p.1 = some p.2 := Store.get_of_mem s hwf p.1 p.2 hp
      rw [hk, hgp] at hgq
      have h2 : p.2 = q.2 := Option.some.inj hgq
      have h3 : q = p := Prod.ext hk h2.symm
      rw [h3]
      simp [hexp]
    · simp [hk]

/-- On a map, the cleanup keeps exactly the entries that are not older than ten
minutes, in their order. -/
theorem cleanup_eq_filter (now : Int) (s : Store) (hwf : s.WF) :
    cleanup now s = s.filter (fun p => !decide (now - p.2.createdAt > 10 * 60 * 1000)) :=
  (foldl_delete_eq_filter (fun p => now - p.2.createdAt > 10 * 60 * 1000) s s).trans
    (filter_any_eq_filter (fun p => now - p.2.createdAt > 10 * 60 * 1000) s hwf)

theorem Store.get_filter (s : Store) (f : Registration → Bool) (k : String)
    (hwf : s.WF) :
    Store.get (s.filter (fun p => f p.2)) k = (Store.get s k).filter f := by
  induction s with
  | nil => rfl
  | cons p s ih =>
    have hnd : p.1 ∉ s.map Prod.fst ∧ (s.map Prod.fst).Nodup := by
      simpa [Store.WF] using hwf
    rw [List.filter_cons, Store.get_cons]
    by_cases hk : p.1 = k
    · rw [if_pos hk]
      by_cases hf : f p.2 = true
      · rw [if_pos hf, Store.get_cons, if_pos hk]
        simp [Option.filter, hf]
      · rw [if_neg hf, ih hnd.2]
        have : Store.get s k = none :=
          Store.get_eq_none_of_not_mem_keys s k (hk ▸ hnd.1)
        rw [this]
        simp [Option.filter, hf]
    · rw [if_neg hk]
      by_cases hf : f p.2 = true
      · rw [if_pos hf, Store.get_cons, if_neg hk]; exact ih hnd.2
      · rw [if_neg hf]; exact ih hnd.2

/-- C6: for every store (a map: each key once) and every time `now`, one run of
the cleanup removes exactly the entries with `now - createdAt > 600000`: such
an entry is absent afterwards, an entry with `now - createdAt ≤ 600000` (one
aged exactly ten minutes included) is still present with the same fields, and
no key is added. -/
theorem cleanup_removes_exactly_expired (now : Int) (s : Store) (hwf : s.WF) :
    (∀ (id : String) (r : Registration), s.get id = some r →
        now - r.createdAt > 600000 → (cleanup now s).get id = none)
      ∧ (∀ (id : String) (r : Registration), s.get id = some r →
        now - r.createdAt ≤ 600000 → (cleanup now s).get id = some r)
      ∧ (∀ id : String, s.get id = none → (cleanup now s).get id = none)
      ∧ cleanup now s = s.filter (fun p => decide (now - p.2.createdAt ≤ 600000)) := by
  have hfil := cleanup_eq_filter now s hwf
  have hget : ∀ id, (cleanup now s).get id
      = (s.get id).filter (fun r => !decide (now - r.createdAt > 10 * 60 * 1000)) := by
    intro id
    rw [hfil]
    exact Store.get_filter s (fun r => !decide (now - r.createdAt > 10 * 60 * 1000)) id hwf
  refine ⟨?_, ?_, ?_, ?_⟩
  · intro id r hg hexp
    rw [hget, hg]
    have : (now - r.createdAt > 10 * 60 * 1000) := hexp
    simp only [Option.filter, decide_eq_true this, Bool.not_true, Bool.false_eq_true, if_false]
  · intro id r hg hfresh
    rw [hget, hg]
    have : ¬ (now - r.createdAt > 10 * 60 * 1000) := not_lt.mpr hfresh
    simp only [Option.filter, decide_eq_false this, Bool.not_false, if_true]
  · intro id hg
    rw [hget, hg]; rfl
  · rw [hfil]
    apply List.filter_congr
    intro p _
    by_cases h : now - p.2.createdAt > 10 * 60 * 1000
    · have h2 : ¬ (now - p.2.createdAt ≤ 600000) := not_le.mpr h
      rw [decide_eq_true h, decide_eq_false h2]; rfl
    · have h2 : now - p.2.createdAt ≤ 600000 := not_lt.mp h
      rw [decide_eq_false h, decide_eq_true h2]; rfl

/-- Witness for C6: a store with one entry aged exactly ten minutes, one aged
ten minutes and one millisecond, and one fresh entry. -/
theorem cleanup_removes_exactly_expired_witness :
    cleanup 1700000600000
        [("a1", sampleRegistration 1700000000000 0), ("b2", sampleRegistration 1699999999999 1),
          ("c3", sampleRegistration 1700000500000 2)]
      = [("a1", sampleRegistration 1700000000000 0), ("c3", sampleRegistration 1700000500000 2)] :=
  (cleanup_removes_exactly_expired 1700000600000
    [("a1", sampleRegistration 1700000000000 0), ("b2", sampleRegistration 1699999999999 1),
      ("c3", sampleRegistration 1700000500000 2)] (by unfold Store.WF; decide)).2.2.2

/-! ## The status query (C7, C8) -/

theorem status_absent (env : Env) (s : Store) (id : String) (h : s.get id = none) :
    status env s id = (s, .error 404 "Registration not found") := by
  unfold status
  rw [h]

theorem status_present (env : Env) (s : Store) (id : String) (r : Registration)
    (h : s.get id = some r) :
    status env s id
      = (s, .status true r.email
          (toString ((10 * 60 * 1000 - (env.now - r.createdAt)) / 60000) ++ ":"
            ++ padStart2
                (toString (((10 * 60 * 1000 - (env.now - r.createdAt)).tmod 60000) / 1000)))
          r.verificationAttempts) := by
  unfold status
  rw [h]

theorem padStart2_two_digits (ss : Nat) (h : ss < 60) :
    padStart2 (toString ss)
      = String.mk [Nat.digitChar (ss / 10), Nat.digitChar (ss % 10)] := by
  interval_cases ss <;> rfl

/-- C7, the failing input: a registration created eleven minutes ago and still
in the store (the cleanup has not run since it expired). The status query
reports it with status 200 and the time remaining "-1:00"; it never looks at
the age. On the same store at the same time, `/verify` with the stored code
answers "Verification code expired" and the cleanup removes the entry. -/
theorem status_of_expired_registration :
    sampleEnv.now - (sampleRegistration 1699999940000 2).createdAt > 600000
      ∧ status sampleEnv (sampleStore 1699999940000 2) "ab12"
          = (sampleStore 1699999940000 2, .status true "ann@example.com" "-1:00" 2)
      ∧ (status sampleEnv (sampleStore 1699999940000 2) "ab12").2.code = 200
      ∧ (status sampleEnv (sampleStore 1699999940000 2) "ab12").2
          ≠ .error 404 "Registration not found"
      ∧ verify sampleEnv (sampleStore 1699999940000 2) (.str "ab12") (.str "123456")
          = ([], .error 400 "Verification code expired. Please request a new one.")
      ∧ cleanup sampleEnv.now (sampleStore 1699999940000 2) = [] := by
  decide

/-- The status query answers 404 "Registration not found", and leaves the store
as it is, whenever the id is absent from the store; this is the case for an
expired registration (`now - createdAt > 600000`) once a run of the cleanup has
removed it. -/
theorem status_not_found (env : Env) (s : Store) (id : String) :
    (s.get id = none → status env s id = (s, .error 404 "Registration not found"))
      ∧ (s.WF → ∀ r : Registration, s.get id = some r → env.now - r.createdAt > 600000 →
          status env (cleanup env.now s) id
            = (cleanup env.now s, .error 404 "Registration not found")) := by
  refine ⟨status_absent env s id, ?_⟩
  intro hwf r hget hexp
  apply status_absent
  have hfil := cleanup_eq_filter env.now s hwf
  rw [hfil, Store.get_filter s (fun r => !decide (env.now - r.createdAt > 10 * 60 * 1000)) id
    hwf, hget]
  have : env.now - r.createdAt > 10 * 60 * 1000 := hexp
  simp only [Option.filter, decide_eq_true this, Bool.not_true, Bool.false_eq_true, if_false]

/-- The status query on an id that is absent, and on the sample registration
swept eleven minutes after its creation. -/
theorem status_not_found_witness :
    status sampleEnv (sampleStore 1700000000000 0) "zz99"
        = (sampleStore 1700000000000 0, .error 404 "Registration not found")
      ∧ status sampleEnv (cleanup sampleEnv.now (sampleStore 1699999940000 2)) "ab12"
        = ([], .error 404 "Registration not found") :=
  ⟨(status_not_found sampleEnv (sampleStore 1700000000000 0) "zz99").1 rfl,
    (status_not_found sampleEnv (sampleStore 1699999940000 2) "ab12").2
      (by unfold Store.WF; decide) (sampleRegistration 1699999940000 2) rfl (by decide)⟩

/-- C8: for a registration `r` present in the store and a time with
`0 ≤ now - createdAt ≤ 600000`, the status query leaves the store unchanged and
returns `exists = true`, the stored email, the stored attempt count and
`timeRemaining = "m:ss"`, where with `rem = 600000 - (now - createdAt)`,
`m = floor(rem / 60000)` lies in 0..10 and `ss = floor((rem mod 60000) / 1000)`
lies in 0..59 and is written with exactly two digits. -/
theorem status_reports_time_remaining (env : Env) (s : Store) (id : String)
    (r : Registration) (hget : s.get id = some r)
    (h0 : 0 ≤ env.now - r.createdAt) (h1 : env.now - r.createdAt ≤ 600000) :
    ∃ m ss : Nat,
      (m : Int) = (600000 - (env.now - r.createdAt)) / 60000
        ∧ (ss : Int) = ((600000 - (env.now - r.createdAt)) % 60000) / 1000
        ∧ m ≤ 10 ∧ ss ≤ 59
        ∧ status env s id
          = (s, .status true r.email
              (toString m ++ ":"
                ++ String.mk [Nat.digitChar (ss / 10), Nat.digitChar (ss % 10)])
              r.verificationAttempts) := by
  obtain ⟨n, hn⟩ := Int.eq_ofNat_of_zero_le (show (0 : Int) ≤ 600000 - (env.now - r.createdAt)
    by omega)
  have hn600 : n ≤ 600000 := by omega
  refine ⟨n / 60000, (n % 60000) / 1000, ?_, ?_, by omega, by omega, ?_⟩
  · rw [hn]; exact Int.natCast_div n 60000
  · rw [hn, Int.natCast_div, Int.natCast_mod]; rfl
  · rw [status_present env s id r hget]
    have hR : (10 * 60 * 1000 - (env.now - r.createdAt) : Int) = (n : Int) := hn
    rw [hR]
    have hm : ((n : Int) / 60000) = ((n / 60000 : Nat) : Int) := (Int.natCast_div n 60000).symm
    have hs : ((n : Int).tmod 60000) / 1000 = (((n % 60000) / 1000 : Nat) : Int) := by
      rw [Int.natCast_div, Int.ofNat_tmod]; rfl
    rw [hm, hs]
    have hpad := padStart2_two_digits ((n % 60000) / 1000) (by omega)
    have e1 : toString (((n / 60000 : Nat) : Int)) = toString (n / 60000) := rfl
    have e2 : toString ((((n % 60000) / 1000 : Nat) : Int)) = toString ((n % 60000) / 1000) :=
      rfl
    rw [e1, e2, hpad]

/-- Witness for C8: the sample registration one second after its creation, with
9 minutes 59 seconds remaining. -/
theorem status_reports_time_remaining_witness :
    ∃ m ss : Nat,
      (m : Int) = (600000 - (sampleEnv.now - 1700000599000)) / 60000
        ∧ (ss : Int) = ((600000 - (sampleEnv.now - 1700000599000)) % 60000) / 1000
        ∧ m ≤ 10 ∧ ss ≤ 59
        ∧ status sampleEnv (sampleStore 1700000599000 3) "ab12"
          = (sampleStore 1700000599000 3, .status true "ann@example.com"
              (toString m ++ ":"
                ++ String.mk [Nat.digitChar (ss / 10), Nat.digitChar (ss % 10)])
              3) :=
  status_reports_time_remaining sampleEnv (sampleStore 1700000599000 3) "ab12"
    (sampleRegistration 1700000599000 3) rfl (by decide) (by decide)

/-! ## Validation in `/initiate` (C9, C10) -/

theorem firstMissingField_none (userData : Body) (h : firstMissingField userData = none) :
    ∀ field ∈ requiredFields, (userData.prop field).truthy = true := by
  intro field hf
  unfold firstMissingField at h
  have := List.find?_eq_none.mp h field hf
  simpa using this

theorem initiate_missing (env : Env) (s : Store) (userData : Body) (field : String)
    (h : firstMissingField userData = some field) :
    initiate env s userData = (s, .error 400 ("Missing required field: " ++ field)) := by
  unfold initiate
  simp only [h]

theorem initiate_email_not_string (env : Env) (s : Store) (userData : Body)
    (hM : firstMissingField userData = none)
    (h : toLowerCase env (userData.prop "email") = none) :
    initiate env s userData
      = (s, .error 500 "Failed to initiate signup. Please try again.") := by
  unfold initiate
  simp only [hM, h]

theorem initiate_lookup_throws (env : Env) (s : Store) (userData : Body) (e : String)
    (err : JsError)
    (hM : firstMissingField userData = none) (he : userData.prop "email" = .str e)
    (h : env.findOne (env.toLowerCase e) = .error err) :
    initiate env s userData
      = (s, .error 500 "Failed to initiate signup. Please try again.") := by
  unfold initiate
  simp only [hM, he, toLowerCase, h]

theorem initiate_email_exists (env : Env) (s : Store) (userData : Body) (e : String)
    (u : User)
    (hM : firstMissingField userData = none) (he : userData.prop "email" = .str e)
    (h : env.findOne (env.toLowerCase e) = .ok (some u)) :
    initiate env s userData
      = (s, .error 400
          "Email already registered. Please log in or use a different email.") := by
  unfold initiate
  simp only [hM, he, toLowerCase, h]

theorem initiate_password_short (env : Env) (s : Store) (userData : Body) (e : String)
    (hM : firstMissingField userData = none) (he : userData.prop "email" = .str e)
    (h : env.findOne (env.toLowerCase e) = .ok none)
    (hp : lengthLt8 (userData.prop "password") = some true) :
    initiate env s userData
      = (s, .error 400 "Password must be at least 8 characters long") := by
  unfold initiate
  simp only [hM, he, toLowerCase, h, hp]

theorem initiate_too_young (env : Env) (s : Store) (userData : Body) (e : String)
    (hM : firstMissingField userData = none) (he : userData.prop "email" = .str e)
    (h : env.findOne (env.toLowerCase e) = .ok none)
    (hp : lengthLt8 (userData.prop "password") = some false)
    (hd : dobAfterMinAgeDate env (userData.prop "dob") = true) :
    initiate env s userData
      = (s, .error 400 "You must be at least 13 years old to register") := by
  unfold initiate
  simp only [hM, he, toLowerCase, h, hp, hd, if_true]

theorem initiate_postal_invalid (env : Env) (s : Store) (userData : Body) (e : String)
    (hM : firstMissingField userData = none) (he : userData.prop "email" = .str e)
    (h : env.findOne (env.toLowerCase e) = .ok none)
    (hp : lengthLt8 (userData.prop "password") = some false)
    (hd : dobAfterMinAgeDate env (userData.prop "dob") = false)
    (hz : postalCodeRegexTest (userData.prop "postalCode") = false) :
    initiate env s userData
      = (s, .error 400 "Please enter a valid postal code (e.g., A1A 1A1)") := by
  unfold initiate
  simp only [hM, he, toLowerCase, h, hp, hd, hz, Bool.false_eq_true, if_false, Bool.not_false,
    if_true]

theorem lengthLt8_of_truthy (v : JVal) (h : v.truthy = true) : lengthLt8 v ≠ none := by
  cases v <;> simp [lengthLt8, JVal.truthy] at h ⊢

/-- C9, as stated, fails: a payload whose password has 5 characters and whose
email is the number 5 passes the required-field loop, and the call
`userData.email.toLowerCase()` throws; the handler answers 500, not 400. The
store is left unchanged. -/
theorem initiate_numeric_email_is_500 :
    (∃ p : String, numericEmailBody.prop "password" = .str p ∧ utf16Length p < 8)
      ∧ initiate sampleEnv (sampleStore 1700000000000 0) numericEmailBody
          = (sampleStore 1700000000000 0,
              .error 500 "Failed to initiate signup. Please try again.")
      ∧ (initiate sampleEnv (sampleStore 1700000000000 0) numericEmailBody).2.code ≠ 400 := by
  refine ⟨⟨"short", rfl, by decide⟩, by decide, by decide⟩

/-- A payload that fails validation leaves the store unchanged and is answered
400, or 500 when all nine fields are truthy and the email is not a string or
the lookup throws. -/
theorem initiate_validation_failure_cases (env : Env) (s : Store) (userData : Body)
    (hfail : FailsValidation env userData) :
    (initiate env s userData).1 = s
      ∧ ((firstMissingField userData ≠ none
            ∨ ∃ e : String, userData.prop "email" = .str e
                ∧ ∀ err : JsError, env.findOne (env.toLowerCase e) ≠ .error err) →
          (initiate env s userData).2.code = 400)
      ∧ ((initiate env s userData).2.code = 400
          ∨ ((initiate env s userData).2.code = 500
              ∧ firstMissingField userData = none
              ∧ ((∀ e : String, userData.prop "email" ≠ .str e)
                  ∨ ∃ (e : String) (err : JsError), userData.prop "email" = .str e
                      ∧ env.findOne (env.toLowerCase e) = .error err))) := by
  cases hM : firstMissingField userData with
  | some field =>
    rw [initiate_missing env s userData field hM]
    exact ⟨rfl, fun _ => rfl, Or.inl rfl⟩
  | none =>
    have htruthy := firstMissingField_none userData hM
    cases hE : userData.prop "email" with
    | str e =>
      cases hF : env.findOne (env.toLowerCase e) with
      | error err =>
        rw [initiate_lookup_throws env s userData e err hM hE hF]
        refine ⟨rfl, ?_, Or.inr ⟨rfl, rfl, Or.inr ⟨e, err, rfl, hF⟩⟩⟩
        intro h
        rcases h with h | ⟨e2, he2, hno⟩
        · exact absurd rfl h
        · cases he2
          exact absurd hF (hno err)
      | ok found =>
        cases found with
        | some u =>
          rw [initiate_email_exists env s userData e u hM hE hF]
          exact ⟨rfl, fun _ => rfl, Or.inl rfl⟩
        | none =>
          have hpwT : (userData.prop "password").truthy = true :=
            htruthy "password" (by decide)
          cases hP : lengthLt8 (userData.prop "password") with
          | none => exact absurd hP (lengthLt8_of_truthy _ hpwT)
          | some short =>
            cases short with
            | true =>
              rw [initiate_password_short env s userData e hM hE hF hP]
              exact ⟨rfl, fun _ => rfl, Or.inl rfl⟩
            | false =>
              cases hD : dobAfterMinAgeDate env (userData.prop "dob") with
              | true =>
                rw [initiate_too_young env s userData e hM hE hF hP hD]
                exact ⟨rfl, fun _ => rfl, Or.inl rfl⟩
              | false =>
                have hZ : postalCodeRegexTest (userData.prop "postalCode") = false := by
                  rcases hfail with ⟨field, hf, hfalse⟩ | ⟨e2, u, he2, hfound⟩
                    | ⟨p, hp, hlen⟩ | hz
                  · rw [htruthy field hf] at hfalse
                    exact absurd hfalse (by decide)
                  · rw [hE] at he2
                    cases he2
                    rw [hF] at hfound
                    cases hfound
                  · rw [hp] at hP
                    simp only [lengthLt8, Option.some.injEq, decide_eq_false_iff_not] at hP
                    exact absurd hlen hP
                  · exact hz
                rw [initiate_postal_invalid env s userData e hM hE hF hP hD hZ]
                exact ⟨rfl, fun _ => rfl, Or.inl rfl⟩
    | undefined =>
      rw [initiate_email_not_string env s userData hM (by rw [hE]; rfl)]
      refine ⟨rfl, ?_, Or.inr ⟨rfl, rfl, Or.inl (fun e he => by cases he)⟩⟩
      intro h
      rcases h with h | ⟨e2, he2, _⟩
      · exact absurd rfl h
      · cases he2
    | null =>
      rw [initiate_email_not_string env s userData hM (by rw [hE]; rfl)]
      refine ⟨rfl, ?_, Or.inr ⟨rfl, rfl, Or.inl (fun e he => by cases he)⟩⟩
      intro h
      rcases h with h | ⟨e2, he2, _⟩
      · exact absurd rfl h
      · cases he2
    | bool b =>
      rw [initiate_email_not_string env s userData hM (by rw [hE]; rfl)]
      refine ⟨rfl, ?_, Or.inr ⟨rfl, rfl, Or.inl (fun e he => by cases he)⟩⟩
      intro h
      rcases h with h | ⟨e2, he2, _⟩
      · exact absurd rfl h
      · cases he2
    | num n =>
      rw [initiate_email_not_string env s userData hM (by rw [hE]; rfl)]
      refine ⟨rfl, ?_, Or.inr ⟨rfl, rfl, Or.inl (fun e he => by cases he)⟩⟩
      intro h
      rcases h with h | ⟨e2, he2, _⟩
      · exact absurd rfl h
      · cases he2

/-- With all nine fields truthy, an email that is not a string, or a lookup that
throws, is answered 500. -/
theorem initiate_exception_is_500 (env : Env) (s : Store) (userData : Body)
    (hM : firstMissingField userData = none)
    (h : (∀ e : String, userData.prop "email" ≠ .str e)
      ∨ ∃ (e : String) (err : JsError), userData.prop "email" = .str e
          ∧ env.findOne (env.toLowerCase e) = .error err) :
    initiate env s userData
      = (s, .error 500 "Failed to initiate signup. Please try again.") := by
  rcases h with h | ⟨e, err, he, hf⟩
  · apply initiate_email_not_string env s userData hM
    cases hE : userData.prop "email" with
    | str e => exact absurd hE (h e)
    | undefined => rfl
    | null => rfl
    | bool b => rfl
    | num n => rfl
  · exact initiate_lookup_throws env s userData e err hM he hf

/-- C9, amended: for every store and every payload that fails validation (a
required field missing or falsy, a user with the lower-cased email exists, the
password shorter than 8, or the postal code not matching the pattern), initiate
leaves the pending store unchanged and fails with status 400 or 500; the status
is 400 whenever a required field is missing or falsy, and whenever the email is
a string and the user lookup does not throw; it is 500 exactly when all nine
fields are truthy and the email is not a string or the lookup throws. -/
theorem initiate_validation_failure (env : Env) (s : Store) (userData : Body)
    (hfail : FailsValidation env userData) :
    (initiate env s userData).1 = s
      ∧ ((firstMissingField userData ≠ none
            ∨ ∃ e : String, userData.prop "email" = .str e
                ∧ ∀ err : JsError, env.findOne (env.toLowerCase e) ≠ .error err) →
          (initiate env s userData).2.code = 400)
      ∧ ((initiate env s userData).2.code = 400
          ∨ ((initiate env s userData).2.code = 500
              ∧ firstMissingField userData = none
              ∧ ((∀ e : String, userData.prop "email" ≠ .str e)
                  ∨ ∃ (e : String) (err : JsError), userData.prop "email" = .str e
                      ∧ env.findOne (env.toLowerCase e) = .error err)))
      ∧ (firstMissingField userData = none
          ∧ ((∀ e : String, userData.prop "email" ≠ .str e)
              ∨ ∃ (e : String) (err : JsError), userData.prop "email" = .str e
                  ∧ env.findOne (env.toLowerCase e) = .error err) →
          (initiate env s userData).2.code = 500) := by
  have h := initiate_validation_failure_cases env s userData hfail
  refine ⟨h.1, h.2.1, h.2.2, ?_⟩
  intro hex
  rw [initiate_exception_is_500 env s userData hex.1 hex.2]
  rfl

/-- Witness for C9: the sample body with the postal code in lower case. -/
theorem initiate_validation_failure_witness :
    (initiate sampleEnv (sampleStore 1700000000000 0) lowerPostalBody).1
        = sampleStore 1700000000000 0
      ∧ (initiate sampleEnv (sampleStore 1700000000000 0) lowerPostalBody).2.code = 400 :=
  have h := initiate_validation_failure sampleEnv (sampleStore 1700000000000 0)
    lowerPostalBody (Or.inr (Or.inr (Or.inr (by decide))))
  ⟨h.1, h.2.1 (Or.inr ⟨"Ann@Example.com", rfl, fun _ hthrow => Except.noConfusion hthrow⟩)⟩

/-- A date of birth after the cutoff is rejected, when the checks before the
age check pass. -/
theorem initiate_rejects_dob_after_cutoff (env : Env) (s : Store) (userData : Body)
    (e : String) (t : Int)
    (hM : firstMissingField userData = none) (he : userData.prop "email" = .str e)
    (h : env.findOne (env.toLowerCase e) = .ok none)
    (hp : lengthLt8 (userData.prop "password") = some false)
    (hd : env.dateValue (userData.prop "dob") = some t) (ht : t > env.minAgeDate) :
    initiate env s userData
      = (s, .error 400 "You must be at least 13 years old to register") := by
  apply initiate_too_young env s userData e hM he h hp
  unfold dobAfterMinAgeDate
  rw [hd]
  exact decide_eq_true ht

/-- A payload is answered with success only if its date of birth is not after
the cutoff: it is an invalid date, or a date no later than the cutoff. -/
theorem initiate_success_dob (env : Env) (s : Store) (userData : Body) (id msg : String)
    (h : (initiate env s userData).2 = .initiated id msg) :
    env.dateValue (userData.prop "dob") = none
      ∨ ∃ t : Int, env.dateValue (userData.prop "dob") = some t ∧ t ≤ env.minAgeDate := by
  cases hdv : env.dateValue (userData.prop "dob") with
  | none => exact Or.inl rfl
  | some t =>
    refine Or.inr ⟨t, rfl, ?_⟩
    by_contra hgt
    have hd : dobAfterMinAgeDate env (userData.prop "dob") = true := by
      unfold dobAfterMinAgeDate
      rw [hdv]
      exact decide_eq_true (not_le.mp hgt)
    unfold initiate at h
    dsimp only at h
    rw [hd] at h
    repeat' split at h
    all_goals contradiction

/-- C10, the failing input: a payload that passes every other validation and
whose `dob` is the string "not a date" is not rejected; `new Date` gives an
invalid date, the comparison `dob > minAgeDate` with its `NaN` is false, and the
pending registration is stored. -/
theorem initiate_stores_invalid_dob :
    sampleEnv.dateValue (invalidDobBody.prop "dob") = none
      ∧ initiate sampleEnv [] invalidDobBody
          = ([("000102030405060708090a0b0c0d0e0f",
                { userData := invalidDobBody
                  password := "$2b$10$longenough1"
                  email := "ann@example.com"
                  verificationCode := "654321"
                  createdAt := 1700000600000
                  verificationAttempts := 0 })],
              .initiated "000102030405060708090a0b0c0d0e0f"
                "Verification code sent to your email")
      ∧ (initiate sampleEnv [] invalidDobBody).2
          ≠ .error 400 "You must be at least 13 years old to register" := by
  decide

/-! ## The payment-customer step of `/verify` (C11) -/

/-- C11, as stated, fails: saving the user succeeds, yet when `jwt.sign` throws
(as it does when `JWT_SECRET` is not set) the handler answers 500 instead of
the 200 success response, in the run where the Stripe call succeeds and in the
run where it throws alike. -/
theorem verify_stripe_runs_without_token :
    unsignedEnv.save
          (unsignedEnv.newUser (verifyUserData (sampleRegistration 1700000000000 1)
            unsignedEnv.now)) = .ok ()
      ∧ verify unsignedEnv (sampleStore 1700000000000 1) (.str "ab12") (.str "123456")
          = ([], .error 500 "Failed to verify email. Please try again.")
      ∧ verify { unsignedEnv with
              createCustomer := fun _ => .error { code := .str "api_connection_error" } }
            (sampleStore 1700000000000 1) (.str "ab12") (.str "123456")
          = ([], .error 500 "Failed to verify email. Please try again.")
      ∧ (verify unsignedEnv (sampleStore 1700000000000 1) (.str "ab12")
          (.str "123456")).2.code ≠ 200 := by
  refine ⟨rfl, ?_⟩
  decide

/-- C11, amended: for a registration `r` pending in a store whose keys and codes
are the generated non-empty strings, the stored code and a time with
`now - createdAt ≤ 600000`, when saving the user succeeds: replacing the
outcome of `StripeService.createCustomer` and of every later `save` by any
other outcome, failures included, does not change what verify does. When
signing the token succeeds as well, both runs answer 200 with the profile (id,
email, firstName, lastName) of the new user and the token, never an error, and
delete the pending registration. -/
theorem verify_ignores_stripe_outcome (env : Env)
    (createCustomer2 : User → Except JsError String)
    (save2 : User → Except JsError Unit)
    (s : Store) (id : String) (r : Registration)
    (hgen : s.Generated) (hget : s.get id = some r)
    (hage : env.now - r.createdAt ≤ 600000)
    (hsave : env.save (env.newUser (verifyUserData r env.now)) = .ok ())
    (hsave2 : save2 (env.newUser (verifyUserData r env.now)) = .ok ()) :
    verify { env with createCustomer := createCustomer2, save := save2 } s (.str id)
          (.str r.verificationCode)
        = verify env s (.str id) (.str r.verificationCode)
      ∧ (∀ token : String,
          env.jwtSign (env.newUser (verifyUserData r env.now))._id
              (env.newUser (verifyUserData r env.now)).email = .ok token →
          verify env s (.str id) (.str r.verificationCode)
              = (s.delete id,
                  .verified
                    { id := (env.newUser (verifyUserData r env.now))._id
                      email := (env.newUser (verifyUserData r env.now)).email
                      firstName := (env.newUser (verifyUserData r env.now)).firstName
                      lastName := (env.newUser (verifyUserData r env.now)).lastName }
                    token "/profile")
            ∧ (verify env s (.str id) (.str r.verificationCode)).2.code = 200
            ∧ (verify { env with createCustomer := createCustomer2, save := save2 } s
                (.str id) (.str r.verificationCode)).2.code = 200
            ∧ (verify env s (.str id) (.str r.verificationCode)).1.get id = none) := by
  have hne := hgen (id, r) (Store.mem_of_get s id r hget)
  have h1 := verify_match_fresh env s id r hne.1 hget hne.2 hage hsave
  have h2 := verify_match_fresh { env with createCustomer := createCustomer2, save := save2 }
    s id r hne.1 hget hne.2 hage hsave2
  have h12 : verify { env with createCustomer := createCustomer2, save := save2 } s (.str id)
      (.str r.verificationCode) = verify env s (.str id) (.str r.verificationCode) := by
    rw [h1, h2]
  refine ⟨h12, ?_⟩
  · intro token htoken
    have h3 : verify env s (.str id) (.str r.verificationCode)
        = (s.delete id,
            .verified
              { id := (env.newUser (verifyUserData r env.now))._id
                email := (env.newUser (verifyUserData r env.now)).email
                firstName := (env.newUser (verifyUserData r env.now)).firstName
                lastName := (env.newUser (verifyUserData r env.now)).lastName }
              token "/profile") := by
      rw [h1, htoken]
    refine ⟨h3, ?_, ?_, ?_⟩
    · rw [h3]; rfl
    · rw [h12, h3]; rfl
    · rw [h3]; exact Store.get_delete_self s id

/-- Witness for C11: the sample registration, verified once with a Stripe call
that succeeds and once with a Stripe call that throws. -/
theorem verify_ignores_stripe_outcome_witness :
    verify { sampleEnv with
          createCustomer := fun _ => .error { code := .str "api_connection_error" }
          save := sampleEnv.save }
        (sampleStore 1700000000000 1) (.str "ab12") (.str "123456")
      = verify sampleEnv (sampleStore 1700000000000 1) (.str "ab12") (.str "123456")
      ∧ (verify sampleEnv (sampleStore 1700000000000 1) (.str "ab12")
          (.str "123456")).2.code = 200 :=
  have h := verify_ignores_stripe_outcome sampleEnv
    (fun _ => .error { code := .str "api_connection_error" }) sampleEnv.save
    (sampleStore 1700000000000 1) "ab12" (sampleRegistration 1700000000000 1)
    (by unfold Store.Generated; decide) rfl (by decide) rfl rfl
  ⟨h.1, (h.2 "jwt:64b7f0c2a1" rfl).2.1⟩

/-! ## A uniqueness conflict while saving the user (C12) -/

/-- C12: for a registration `r` pending in a store whose keys and codes are the
generated non-empty strings, the stored code and a time with
`now - createdAt ≤ 600000`, if saving the user throws an error whose `code` is
11000, verify answers 400 "Email already registered. Please log in.": the
status is neither 500 nor 200, the response is not the success response, which
is the only one that carries a token, and the store is left as it was. -/
theorem verify_duplicate_email (env : Env) (s : Store) (id : String) (r : Registration)
    (e : JsError)
    (hgen : s.Generated) (hget : s.get id = some r)
    (hage : env.now - r.createdAt ≤ 600000)
    (hsave : env.save (env.newUser (verifyUserData r env.now)) = .error e)
    (hcode : e.code = .num 11000) :
    verify env s (.str id) (.str r.verificationCode)
        = (s, .error 400 "Email already registered. Please log in.")
      ∧ (verify env s (.str id) (.str r.verificationCode)).2.code = 400
      ∧ (verify env s (.str id) (.str r.verificationCode)).2.code ≠ 500
      ∧ (∀ (user : PublicUser) (token redirectUrl : String),
          (verify env s (.str id) (.str r.verificationCode)).2
            ≠ .verified user token redirectUrl) := by
  have hne := hgen (id, r) (Store.mem_of_get s id r hget)
  have hnotexp : ¬ (env.now - r.createdAt > 10 * 60 * 1000) := not_lt.mpr hage
  have h : verify env s (.str id) (.str r.verificationCode)
      = (s, .error 400 "Email already registered. Please log in.") := by
    unfold verify
    rw [Store.getJ_str s id r hget]
    simp only [JVal.truthy_str id hne.1, JVal.truthy_str _ hne.2, strictNe_self, hsave, hcode]
    simp only [Bool.not_true, Bool.or_self, Bool.false_eq_true, if_false, if_neg hnotexp,
      if_true]
  rw [h]
  refine ⟨rfl, rfl, ?_, ?_⟩
  · show (400 : Nat) ≠ 500
    decide
  · intro user token redirectUrl hv
    cases hv

/-- Witness for C12: the sample registration, with a user store that rejects
the new user with a duplicate-key error. -/
theorem verify_duplicate_email_witness :
    verify { sampleEnv with save := fun _ => .error { code := .num 11000 } }
        (sampleStore 1700000000000 1) (.str "ab12") (.str "123456")
      = (sampleStore 1700000000000 1, .error 400 "Email already registered. Please log in.") :=
  (verify_duplicate_email { sampleEnv with save := fun _ => .error { code := .num 11000 } }
    (sampleStore 1700000000000 1) "ab12" (sampleRegistration 1700000000000 1)
    { code := .num 11000 }
    (by unfold Store.Generated; decide) rfl (by decide) rfl rfl).1

/-! ## What `/initiate` stores (C13) -/

theorem Body.prop_cons (p : String × JVal) (body : Body) (field : String) :
    Body.prop (p :: body) field = if p.1 = field then p.2 else Body.prop body field := by
  unfold Body.prop
  rw [List.find?_cons]
  by_cases h : p.1 = field
  · have hb : (p.1 == field) = true := by simpa using h
    simp [hb, h]
  · have hb : (p.1 == field) = false := by simpa using h
    simp [hb, h]

theorem Body.prop_map_self (body : Body) (field : String) (v : JVal)
    (h : body.any (fun p => p.1 == field) = true) :
    Body.prop (body.map (fun p => if p.1 == field then (field, v) else p)) field = v := by
  induction body with
  | nil => simp at h
  | cons p body ih =>
    rw [List.map_cons, Body.prop_cons]
    by_cases hp : p.1 = field
    · have hb : (p.1 == field) = true := by simpa using hp
      simp [hb]
    · have hb : (p.1 == field) = false := by simpa using hp
      rw [List.any_cons, hb, Bool.false_or] at h
      simp only [hb, Bool.false_eq_true, if_false, if_neg hp]
      exact ih h

theorem Body.prop_map_ne (body : Body) (field other : String) (v : JVal)
    (hne : other ≠ field) :
    Body.prop (body.map (fun p => if p.1 == field then (field, v) else p)) other
      = Body.prop body other := by
  induction body with
  | nil => rfl
  | cons p body ih =>
    rw [List.map_cons, Body.prop_cons, Body.prop_cons, ih]
    by_cases hp : p.1 = field
    · have hb : (p.1 == field) = true := by simpa using hp
      have h1 : ¬ field = other := fun h => hne h.symm
      have h2 : ¬ p.1 = other := fun h => hne (h.symm.trans hp)
      simp [hb, h1, h2]
    · have hb : (p.1 == field) = false := by simpa using hp
      simp [hb]

theorem Body.prop_append_of_none (body : Body) (field other : String) (v : JVal)
    (h : body.any (fun p => p.1 == other) = false) :
    Body.prop (body ++ [(field, v)]) other = if field = other then v else .undefined := by
  induction body with
  | nil =>
    rw [List.nil_append, Body.prop_cons]
    rfl
  | cons p body ih =>
    rw [List.any_cons, Bool.or_eq_false_iff] at h
    have hp : ¬ p.1 = other := by simpa using h.1
    rw [List.cons_append, Body.prop_cons, if_neg hp]
    exact ih h.2

theorem Body.prop_append_of_some (body : Body) (field other : String) (v : JVal)
    (h : body.any (fun p => p.1 == other) = true) :
    Body.prop (body ++ [(field, v)]) other = Body.prop body other := by
  induction body with
  | nil => simp at h
  | cons p body ih =>
    rw [List.cons_append, Body.prop_cons, Body.prop_cons]
    by_cases hp : p.1 = other
    · rw [if_pos hp, if_pos hp]
    · have hb : (p.1 == other) = false := by simpa using hp
      rw [List.any_cons, hb, Bool.false_or] at h
      rw [if_neg hp, if_neg hp]
      exact ih h

theorem Body.prop_of_any_false (body : Body) (other : String)
    (h : body.any (fun p => p.1 == other) = false) : Body.prop body other = .undefined := by
  induction body with
  | nil => rfl
  | cons p body ih =>
    rw [List.any_cons, Bool.or_eq_false_iff] at h
    have hp : ¬ p.1 = other := by simpa using h.1
    rw [Body.prop_cons, if_neg hp]
    exact ih h.2

/-- Reading the property just written gives the written value. -/
theorem Body.prop_assign_self (body : Body) (field : String) (v : JVal) :
    (body.assign field v).prop field = v := by
  unfold Body.assign
  by_cases h : body.any (fun p => p.1 == field) = true
  · rw [if_pos h]; exact Body.prop_map_self body field v h
  · rw [if_neg h]
    have h2 : body.any (fun p => p.1 == field) = false := (Bool.not_eq_true _).mp h
    rw [Body.prop_append_of_none body field field v h2, if_pos rfl]

/-- Writing a property leaves every other property as it was. -/
theorem Body.prop_assign_ne (body : Body) (field other : String) (v : JVal)
    (hne : other ≠ field) : (body.assign field v).prop other = body.prop other := by
  unfold Body.assign
  by_cases h : body.any (fun p => p.1 == field) = true
  · rw [if_pos h]; exact Body.prop_map_ne body field other v hne
  · rw [if_neg h]
    by_cases ho : body.any (fun p => p.1 == other) = true
    · exact Body.prop_append_of_some body field other v ho
    · have ho2 : body.any (fun p => p.1 == other) = false := (Bool.not_eq_true _).mp ho
      rw [Body.prop_append_of_none body field other v ho2,
        if_neg (fun e => hne e.symm), Body.prop_of_any_false body other ho2]

/-- In the object a registration stands for, `verificationAttempts` is the
stored count, whatever the spread body carries under that name. -/
theorem Registration.toObject_verificationAttempts (r : Registration) :
    r.toObject.prop "verificationAttempts" = .num r.verificationAttempts := by
  unfold Registration.toObject
  exact Body.prop_assign_self _ _ _

theorem Registration.toObject_createdAt (r : Registration) :
    r.toObject.prop "createdAt" = .num r.createdAt := by
  unfold Registration.toObject
  rw [Body.prop_assign_ne _ _ _ _ (by decide)]
  exact Body.prop_assign_self _ _ _

theorem Registration.toObject_verificationCode (r : Registration) :
    r.toObject.prop "verificationCode" = .str r.verificationCode := by
  unfold Registration.toObject
  rw [Body.prop_assign_ne _ _ _ _ (by decide), Body.prop_assign_ne _ _ _ _ (by decide)]
  exact Body.prop_assign_self _ _ _

theorem Registration.toObject_email (r : Registration) :
    r.toObject.prop "email" = .str r.email := by
  unfold Registration.toObject
  rw [Body.prop_assign_ne _ _ _ _ (by decide), Body.prop_assign_ne _ _ _ _ (by decide),
    Body.prop_assign_ne _ _ _ _ (by decide)]
  exact Body.prop_assign_self _ _ _

theorem Registration.toObject_password (r : Registration) :
    r.toObject.prop "password" = .str r.password := by
  unfold Registration.toObject
  rw [Body.prop_assign_ne _ _ _ _ (by decide), Body.prop_assign_ne _ _ _ _ (by decide),
    Body.prop_assign_ne _ _ _ _ (by decide), Body.prop_assign_ne _ _ _ _ (by decide)]
  exact Body.prop_assign_self _ _ _

/-- Every property other than the five written by the server is read from the
spread body. -/
theorem Registration.toObject_other (r : Registration) (field : String)
    (h : field ∉ ["password", "email", "verificationCode", "createdAt",
      "verificationAttempts"]) :
    r.toObject.prop field = r.prop field := by
  simp only [List.mem_cons, List.mem_singleton, List.not_mem_nil, or_false, not_or] at h
  unfold Registration.toObject Registration.prop
  rw [Body.prop_assign_ne _ _ _ _ h.2.2.2.2, Body.prop_assign_ne _ _ _ _ h.2.2.2.1,
    Body.prop_assign_ne _ _ _ _ h.2.2.1, Body.prop_assign_ne _ _ _ _ h.2.1,
    Body.prop_assign_ne _ _ _ _ h.1]

theorem Store.get_append_of_none (s l : Store) (k : String) (h : s.get k = none) :
    Store.get (s ++ l) k = Store.get l k := by
  induction s with
  | nil => rfl
  | cons p s ih =>
    rw [Store.get_cons] at h
    by_cases hp : p.1 = k
    · rw [if_pos hp] at h; cases h
    · rw [if_neg hp] at h
      rw [List.cons_append, Store.get_cons, if_neg hp]
      exact ih h

/-- After `set(k, v)` the map holds `v` under `k`. -/
theorem Store.get_set_self (s : Store) (k : String) (v : Registration) :
    (s.set k v).get k = some v := by
  cases hg : s.get k with
  | some r =>
    rw [Store.set_eq_modify s k v r hg, Store.get_modify_self, hg]
    rfl
  | none =>
    rw [Store.set_eq_append s k v hg, Store.get_append_of_none s _ k hg, Store.get_cons,
      if_pos rfl]

/-- An accepted payload is stored under the generated id, with the five
properties written by the server. -/
theorem initiate_accepted (env : Env) (s : Store) (userData : Body) (email password : String)
    (h : Accepted env userData email password) :
    (initiate env s userData).1
      = s.set (toHex env.randomBytes)
          { userData := userData
            password := env.bcryptHash password
            email := env.toLowerCase email
            verificationCode := toString env.randomCode
            createdAt := env.now
            verificationAttempts := 0 } := by
  obtain ⟨hM, hE, hF, hP, hL, hD, hZ⟩ := h
  have hlen : lengthLt8 (.str password) = some false := by
    simp only [lengthLt8, decide_eq_false hL]
  unfold initiate
  simp only [hM, hE, toLowerCase, hF, hP, hlen, hD, hZ, bcryptHash, Bool.false_eq_true,
    if_false, Bool.not_true]
  split <;> rfl

/-- The checks of `/initiate` read no property named `verificationCode`,
`createdAt` or `verificationAttempts`. -/
theorem Accepted_congr (env : Env) (userData userData2 : Body) (email password : String)
    (hsame : ∀ field : String, field ∉ serverFields →
      userData2.prop field = userData.prop field)
    (h : Accepted env userData email password) :
    Accepted env userData2 email password := by
  obtain ⟨hM, hE, hF, hP, hL, hD, hZ⟩ := h
  have hreq : ∀ field ∈ requiredFields, userData2.prop field = userData.prop field := by
    intro field hf
    apply hsame
    revert field
    decide
  refine ⟨?_, ?_, hF, ?_, hL, ?_, ?_⟩
  · unfold firstMissingField at hM ⊢
    rw [List.find?_eq_none] at hM ⊢
    intro field hf
    rw [hreq field hf]
    exact hM field hf
  · rw [hreq "email" (by decide)]; exact hE
  · rw [hreq "password" (by decide)]; exact hP
  · rw [hreq "dob" (by decide)]; exact hD
  · rw [hreq "postalCode" (by decide)]; exact hZ

theorem Body.prop_of_not_mem (body : Body) (field : String)
    (h : field ∉ body.map Prod.fst) : Body.prop body field = .undefined := by
  induction body with
  | nil => rfl
  | cons p body ih =>
    simp only [List.map_cons, List.mem_cons, not_or] at h
    rw [Body.prop_cons, if_neg (fun e => h.1 e.symm)]
    exact ih h.2

/-- Properties added at the end of a body do not change the reading of a
property with another name. -/
theorem Body.prop_append_of_not_mem (body extra : Body) (field : String)
    (h : field ∉ extra.map Prod.fst) :
    Body.prop (body ++ extra) field = Body.prop body field := by
  induction body with
  | nil => rw [List.nil_append, Body.prop_of_not_mem extra field h]; rfl
  | cons p body ih =>
    rw [List.cons_append, Body.prop_cons, Body.prop_cons, ih]

/-- C13: for every accepted payload, whatever else the body carries, the
registration stored under the generated id has `verificationCode` = the
generated code, `createdAt` = the current time, `verificationAttempts` = 0,
`password` = the hash of the submitted password and `email` = the lower-cased
submitted email, both as fields of the registration and as properties of the
stored object, whose other properties are the body's; and a second payload
that differs from it only in the properties `verificationCode`, `createdAt`
and `verificationAttempts` is accepted as well and stores the same three
values. -/
theorem initiate_stores_server_values (env : Env) (s : Store) (userData : Body)
    (email password : String) (h : Accepted env userData email password) :
    (∃ r : Registration,
        (initiate env s userData).1.get (toHex env.randomBytes) = some r
          ∧ r.verificationCode = toString env.randomCode
          ∧ r.createdAt = env.now
          ∧ r.verificationAttempts = 0
          ∧ r.password = env.bcryptHash password
          ∧ r.email = env.toLowerCase email
          ∧ r.userData = userData
          ∧ r.toObject.prop "verificationCode" = .str (toString env.randomCode)
          ∧ r.toObject.prop "createdAt" = .num env.now
          ∧ r.toObject.prop "verificationAttempts" = .num 0
          ∧ r.toObject.prop "password" = .str (env.bcryptHash password)
          ∧ r.toObject.prop "email" = .str (env.toLowerCase email)
          ∧ (∀ field : String,
              field ∉ ["password", "email", "verificationCode", "createdAt",
                "verificationAttempts"] →
              r.toObject.prop field = userData.prop field))
      ∧ (∀ userData2 : Body,
          (∀ field : String, field ∉ serverFields →
            userData2.prop field = userData.prop field) →
          Accepted env userData2 email password
            ∧ ∃ r2 : Registration,
                (initiate env s userData2).1.get (toHex env.randomBytes) = some r2
                  ∧ r2.verificationCode = toString env.randomCode
                  ∧ r2.createdAt = env.now
                  ∧ r2.verificationAttempts = 0
                  ∧ r2.toObject.prop "verificationCode" = .str (toString env.randomCode)
                  ∧ r2.toObject.prop "createdAt" = .num env.now
                  ∧ r2.toObject.prop "verificationAttempts" = .num 0) := by
  refine ⟨?_, ?_⟩
  · refine ⟨{ userData := userData
              password := env.bcryptHash password
              email := env.toLowerCase email
              verificationCode := toString env.randomCode
              createdAt := env.now
              verificationAttempts := 0 }, ?_, rfl, rfl, rfl, rfl, rfl, rfl,
      Registration.toObject_verificationCode _, Registration.toObject_createdAt _,
      Registration.toObject_verificationAttempts _, Registration.toObject_password _,
      Registration.toObject_email _, ?_⟩
    · rw [initiate_accepted env s userData email password h]
      exact Store.get_set_self s _ _
    · intro field hf
      exact Registration.toObject_other _ field hf
  · intro userData2 hsame
    have h2 := Accepted_congr env userData userData2 email password hsame h
    refine ⟨h2, { userData := userData2
                  password := env.bcryptHash password
                  email := env.toLowerCase email
                  verificationCode := toString env.randomCode
                  createdAt := env.now
                  verificationAttempts := 0 }, ?_, rfl, rfl, rfl,
      Registration.toObject_verificationCode _, Registration.toObject_createdAt _,
      Registration.toObject_verificationAttempts _⟩
    rw [initiate_accepted env s userData2 email password h2]
    exact Store.get_set_self s _ _

/-- Witness for C13: the sample body with `verificationCode`, `createdAt` and
`verificationAttempts` supplied by the client; the stored object carries the
server's values. -/
theorem initiate_stores_server_values_witness :
    ∃ r : Registration,
      (initiate sampleEnv [] tamperedBody).1.get "000102030405060708090a0b0c0d0e0f" = some r
        ∧ r.verificationCode = "654321"
        ∧ r.createdAt = 1700000600000
        ∧ r.verificationAttempts = 0
        ∧ r.toObject.prop "verificationCode" = .str "654321"
        ∧ r.toObject.prop "createdAt" = .num 1700000600000
        ∧ r.toObject.prop "verificationAttempts" = .num 0
        ∧ tamperedBody.prop "verificationCode" = .str "000000" :=
  have h := (initiate_stores_server_values sampleEnv [] sampleBody "Ann@Example.com"
    "longenough1" ⟨rfl, rfl, rfl, rfl, by decide, rfl, rfl⟩).2 tamperedBody
    (fun field hf => Body.prop_append_of_not_mem sampleBody _ field hf)
  h.2.elim fun r hr =>
    ⟨r, hr.1, hr.2.1, hr.2.2.1, hr.2.2.2.1, hr.2.2.2.2.1, hr.2.2.2.2.2.1, hr.2.2.2.2.2.2, rfl⟩

end SignupVerification
